import Mathlib

/-!
Verification of the apiforge task-queue and hybrid-scheduler core.

The Lean definitions below are a shallow embedding of the Python source:
* `apiforge/core/task.py` (Task state machine),
* `apiforge/core/worker.py` (worker processing loop and error classification),
* `apiforge/core/db/sqlite/repositories/queue.py` (durable queue repository),
* `apiforge/core/db/sqlite_queue.py` and `apiforge/core/persistent_queue.py`
  (task cancellation),
* `apiforge/scheduling/dynamic_scaler.py` (DynamicWorkerScaler),
* `apiforge/scheduling/progressive_scheduler.py` (ProgressiveScheduler),
* `apiforge/scheduling/api_pattern_matcher.py` (APIPatternMatcher),
* `apiforge/config.py` (Settings validation).

Python floats are modelled as rationals (`ℚ`), wall-clock times as natural
numbers (seconds, resp. microsecond-granularity instants), and database
tables as association lists.  Fallible constructors return `Except`.
-/

namespace ApiForge

attribute [local semireducible] Rat.mul Rat.add Rat.sub Rat.inv
  Rat.ofScientific

/-! ## Task model (`apiforge/core/task.py`) -/

/-- `TaskStatus` enum from `task.py`. -/
inductive TaskStatus where
  | pending
  | in_progress
  | completed
  | failed
  | retrying
  | cancelled
deriving DecidableEq, Repr

/-- `TaskPriority` enum from `task.py`: CRITICAL=1, HIGH=2, NORMAL=3, LOW=4,
DEFERRED=5. -/
inductive TaskPriority where
  | critical
  | high
  | normal
  | low
  | deferred
deriving DecidableEq, Repr

/-- Integer value of a `TaskPriority` (the `IntEnum` value). -/
def TaskPriority.value : TaskPriority → Nat
  | .critical => 1
  | .high => 2
  | .normal => 3
  | .low => 4
  | .deferred => 5

/-- `TaskError` record from `task.py` (`error_details` omitted: opaque). -/
structure TaskError where
  timestamp : Nat
  error_type : String
  error_message : String
  recoverable : Bool
  retry_after_seconds : Option Nat
deriving DecidableEq, Repr

/-- `TaskMetrics` from `task.py`.  `duration_seconds` is an integer number of
seconds since times are modelled at second granularity. -/
structure TaskMetrics where
  start_time : Option Nat := none
  end_time : Option Nat := none
  duration_seconds : Option Int := none
  retry_count : Nat := 0
  error_count : Nat := 0
deriving DecidableEq, Repr

/-- The `Task` pydantic model from `task.py`, restricted to the fields the
queue/worker/retry logic reads or writes.  The endpoint payload and generated
results are opaque to the scheduling core and omitted. -/
structure Task where
  task_id : String
  session_id : String
  created_at : Nat
  updated_at : Nat
  priority : TaskPriority := .normal
  status : TaskStatus := .pending
  max_retries : Nat := 3
  retry_count : Nat := 0
  retry_delay_seconds : Nat := 5
  errors : List TaskError := []
  last_error : Option TaskError := none
  metrics : TaskMetrics := {}
deriving DecidableEq, Repr

namespace Task

/-- `Task.mark_in_progress`. -/
def mark_in_progress (now : Nat) (t : Task) : Task :=
  { t with
    status := .in_progress
    metrics := { t.metrics with start_time := some now }
    updated_at := now }

/-- `Task.mark_completed` (the generated test cases are opaque and dropped). -/
def mark_completed (now : Nat) (t : Task) : Task :=
  let metrics1 := { t.metrics with end_time := some now }
  let metrics2 :=
    match metrics1.start_time with
    | some s => { metrics1 with duration_seconds := some ((now : Int) - (s : Int)) }
    | none => metrics1
  { t with status := .completed, metrics := metrics2, updated_at := now }

/-- `Task.mark_failed`: records the error, then either transitions to
`retrying` (incrementing `retry_count`) when the error is recoverable and
retry budget remains, or to `failed`. -/
def mark_failed (now : Nat) (error_type error_message : String)
    (recoverable : Bool) (t : Task) : Task :=
  let task_error : TaskError :=
    { timestamp := now
      error_type := error_type
      error_message := error_message
      recoverable := recoverable
      retry_after_seconds := some (t.retry_delay_seconds * 2 ^ t.retry_count) }
  let t1 := { t with
    errors := t.errors ++ [task_error]
    last_error := some task_error
    metrics := { t.metrics with error_count := t.metrics.error_count + 1 } }
  let t2 :=
    if recoverable ∧ t1.retry_count < t1.max_retries then
      { t1 with
        status := .retrying
        retry_count := t1.retry_count + 1
        metrics := { t1.metrics with retry_count := t1.retry_count + 1 } }
    else
      { t1 with
        status := .failed
        metrics :=
          match t1.metrics.start_time with
          | some _ => { t1.metrics with end_time := some now }
          | none => t1.metrics }
  { t2 with updated_at := now }

end Task

/-! ## Worker error classification and processing (`apiforge/core/worker.py`) -/

/-- Whether the character list `n` occurs at the start of `h`. -/
def leadsWith : List Char → List Char → Bool
  | [], _ => true
  | _ :: _, [] => false
  | a :: as, b :: bs => a == b && leadsWith as bs

/-- Whether the character list `n` occurs contiguously anywhere in `h`
(Python's `n in h` on strings). -/
def occursIn (n : List Char) : List Char → Bool
  | [] => n.isEmpty
  | b :: bs => leadsWith n (b :: bs) || occursIn n bs

/-- Python `needle in hay` for strings. -/
def strIn (needle hay : String) : Bool :=
  occursIn needle.toList hay.toList

/-- ASCII lower-casing of one character (`str.lower` on the ASCII error
texts at hand). -/
def lowerChar (c : Char) : Char :=
  if 'A' ≤ c ∧ c ≤ 'Z' then Char.ofNat (c.toNat + 32) else c

/-- `Worker._is_recoverable_error`: substring matching on the lowered error
text. -/
def is_recoverable_error (error_text : String) : Bool :=
  let lower := error_text.toList.map lowerChar
  (["timeout", "connection", "network", "rate limit"].any fun s =>
    occursIn s.toList lower)
  || (["500", "502", "503", "504", "429"].any fun s =>
    occursIn s.toList lower)

/-- One failing processing attempt as performed by `Worker._process_task`:
the task is marked in-progress, the processor raises an error with text
`error_message`, and the worker marks the task failed with recoverability
decided by `Worker._is_recoverable_error`. -/
def failingAttempt (now : Nat) (error_type error_message : String)
    (t : Task) : Task :=
  (t.mark_in_progress now).mark_failed now error_type error_message
    (is_recoverable_error error_message)

/-! ## Durable queue repository
(`apiforge/core/db/sqlite/repositories/queue.py`)

The SQLite tables are modelled as lists: `tasks` (keyed by `task_id`),
`task_queue` (keyed by autoincrement `queue_id`, kept in insertion = rowid
order) and `progress` (keyed by `session_id`). -/

/-- A row of the `task_queue` pending-index table. -/
structure QueueRow where
  queue_id : Nat
  task_id : String
  session_id : String
  priority : Nat
  scheduled_at : Nat
deriving DecidableEq, Repr

/-- A row of the `progress` counters table. -/
structure Progress where
  pending_tasks : Int := 0
  processing_tasks : Int := 0
  completed_tasks : Int := 0
  failed_tasks : Int := 0
  total_tasks : Int := 0
  last_update : Nat := 0
deriving DecidableEq, Repr

instance : Inhabited Progress := ⟨{}⟩

/-- The database state seen by `QueueRepository`. -/
structure DBState where
  tasks : List Task
  queue : List QueueRow
  next_queue_id : Nat := 0
  progress : List (String × Progress) := []
deriving DecidableEq, Repr

/-- `SELECT * FROM tasks WHERE task_id = ?` (first match). -/
def findTask (st : DBState) (tid : String) : Option Task :=
  st.tasks.find? (fun t => t.task_id == tid)

/-- `TaskRepository.update`: `UPDATE tasks SET ... WHERE task_id = ?`. -/
def updateTask (t : Task) (tasks : List Task) : List Task :=
  tasks.map (fun u => if u.task_id == t.task_id then t else u)

/-- `QueueRepository._update_progress`: the SQL `UPDATE progress SET
pending_tasks = pending_tasks + ?, ... , total_tasks = pending_tasks +
processing_tasks + completed_tasks + failed_tasks, last_update = ? WHERE
session_id = ?`.  In SQLite the column references on the right-hand sides
all read the pre-update values, so `total_tasks` is recomputed from the old
counters. -/
def updateProgress (sid : String) (pending_delta processing_delta
    completed_delta failed_delta : Int) (now : Nat)
    (rows : List (String × Progress)) : List (String × Progress) :=
  rows.map (fun r =>
    if r.1 == sid then
      (r.1,
        { pending_tasks := r.2.pending_tasks + pending_delta
          processing_tasks := r.2.processing_tasks + processing_delta
          completed_tasks := r.2.completed_tasks + completed_delta
          failed_tasks := r.2.failed_tasks + failed_delta
          total_tasks := r.2.pending_tasks + r.2.processing_tasks
            + r.2.completed_tasks + r.2.failed_tasks
          last_update := now })
    else r)

/-- `QueueRepository.enqueue`: inserts the task (duplicate `task_id` violates
the primary key and aborts the transaction), inserts a `task_queue` row whose
`scheduled_at` is the current wall-clock time, and bumps the session's
pending counter. -/
def enqueue (now : Nat) (t : Task) (st : DBState) : Except String DBState :=
  if st.tasks.any (fun u => u.task_id == t.task_id) then
    .error "UNIQUE constraint failed: tasks.task_id"
  else
    .ok { st with
      tasks := st.tasks ++ [t]
      queue := st.queue ++
        [⟨st.next_queue_id, t.task_id, t.session_id, t.priority.value, now⟩]
      next_queue_id := st.next_queue_id + 1
      progress := updateProgress t.session_id 1 0 0 0 now st.progress }

/-- The rows eligible for dequeue: the SQL join/filter
`tasks JOIN task_queue ON task_id WHERE status IN ('pending','retrying')
AND scheduled_at <= now [AND session_id = ?]`. -/
def availableRows (now : Nat) (sess : Option String) (st : DBState) :
    List QueueRow :=
  st.queue.filter (fun q =>
    q.scheduled_at ≤ now &&
      match findTask st q.task_id with
      | some t =>
          (t.status == .pending || t.status == .retrying) &&
            match sess with
            | some s => t.session_id == s
            | none => true
      | none => false)

/-- Strict lexicographic comparison on `(priority, scheduled_at)`, the SQL
`ORDER BY q.priority ASC, q.scheduled_at ASC`. -/
def rowLt (a b : QueueRow) : Prop :=
  a.priority < b.priority ∨
    (a.priority = b.priority ∧ a.scheduled_at < b.scheduled_at)

instance : DecidablePred fun p : QueueRow × QueueRow => rowLt p.1 p.2 :=
  fun _ => by unfold rowLt; infer_instance

instance (a b : QueueRow) : Decidable (rowLt a b) := by
  unfold rowLt; infer_instance

/-- The first row minimal under `ORDER BY priority, scheduled_at` (ties keep
the earlier rowid, matching SQLite's stable scan with `LIMIT 1`). -/
def minRow : List QueueRow → Option QueueRow
  | [] => none
  | q :: qs =>
    match minRow qs with
    | none => some q
    | some m => if rowLt m q then some m else some q

/-- `QueueRepository.dequeue`: atomically pick the `ORDER BY priority,
scheduled_at LIMIT 1` available row, delete it from `task_queue`, mark the
task in-progress, and swap one pending for one processing in the session's
counters. -/
def dequeue (now : Nat) (sess : Option String) (st : DBState) :
    Option Task × DBState :=
  match minRow (availableRows now sess st) with
  | none => (none, st)
  | some q =>
    match findTask st q.task_id with
    | none => (none, st)
    | some t =>
      let t1 := t.mark_in_progress now
      (some t1,
        { st with
          queue := st.queue.filter (fun r => r.queue_id != q.queue_id)
          tasks := updateTask t1 st.tasks
          progress :=
            updateProgress t1.session_id (-1) 1 0 0 now st.progress })

/-- `QueueRepository.requeue`: set status `retrying`, schedule at
`now + delay`, re-insert the index row with the priority demoted one tier
(capped at `DEFERRED`), and swap one processing for one pending. -/
def requeue (now delay_seconds : Nat) (t : Task) (st : DBState) : DBState :=
  let t1 := { t with status := TaskStatus.retrying }
  let scheduled_at := now + delay_seconds
  let retry_priority := min (t.priority.value + 1) TaskPriority.deferred.value
  { st with
    tasks := updateTask t1 st.tasks
    queue := st.queue ++
      [⟨st.next_queue_id, t.task_id, t.session_id, retry_priority,
        scheduled_at⟩]
    next_queue_id := st.next_queue_id + 1
    progress := updateProgress t.session_id 1 (-1) 0 0 now st.progress }

/-- `QueueRepository.remove_from_queue`: `DELETE FROM task_queue WHERE
task_id = ?`; returns whether any row was deleted. -/
def remove_from_queue (tid : String) (st : DBState) : Bool × DBState :=
  (st.queue.any (fun r => r.task_id == tid),
    { st with queue := st.queue.filter (fun r => r.task_id != tid) })

/-- `SQLiteTaskQueue.cancel_task` (`apiforge/core/db/sqlite_queue.py`):
cancels only tasks currently `pending` or `retrying`; refuses (returns
`false`, no state change) for unknown ids and all other statuses. -/
def sqliteCancelTask (tid : String) (st : DBState) : Bool × DBState :=
  match findTask st tid with
  | none => (false, st)
  | some t =>
    if t.status ≠ TaskStatus.pending ∧ t.status ≠ TaskStatus.retrying then
      (false, st)
    else
      let st1 := (remove_from_queue tid st).2
      let t1 := { t with status := TaskStatus.cancelled }
      (true, { st1 with tasks := updateTask t1 st1.tasks })

/-- `PersistentTaskQueue.cancel_task` (`apiforge/core/persistent_queue.py`):
the body is a bare `return False`; no queue or task state of any kind is
read or written, so it is polymorphic in the queue state. -/
def persistentCancelTask {σ : Type} (st : σ) (_task_id : String) : Bool × σ :=
  (false, st)

/-! ### Scenario machinery for the priority-ordering property -/

/-- A freshly constructed task as the producers build them: default status
`pending`, default retry configuration. -/
def mkTask (tid sid : String) (p : TaskPriority) (now : Nat) : Task :=
  { task_id := tid, session_id := sid, created_at := now, updated_at := now
    priority := p }

/-- Enqueue a batch of `(task_id, priority)` work items one at a time, the
wall clock advancing between consecutive calls. -/
def enqueueSeq (sid : String) : Nat → List (String × TaskPriority) →
    DBState → Except String DBState
  | _, [], st => .ok st
  | now, op :: rest, st => do
    let st1 ← enqueue now (mkTask op.1 sid op.2 now) st
    enqueueSeq sid (now + 1) rest st1

/-- Iterate `dequeue`, collecting the returned tasks. -/
def dequeueN : Nat → Nat → Option String → DBState → List Task × DBState
  | 0, _, _, st => ([], st)
  | k + 1, now, sess, st =>
    match dequeue now sess st with
    | (none, st1) => ([], st1)
    | (some t, st1) =>
      let r := dequeueN k now sess st1
      (t :: r.1, r.2)

/-- The critical-priority rows of the pending index, in rowid (FIFO) order. -/
def critRows (st : DBState) : List QueueRow :=
  st.queue.filter (fun q => q.priority == TaskPriority.critical.value)

/-! ## Scheduling data model (`apiforge/scheduling/models.py`) -/

/-- `ScalingAction` enum. -/
inductive ScalingAction where
  | scale_up
  | scale_down
  | maintain
deriving DecidableEq, Repr

/-- `WorkerMetrics` dataclass. -/
structure WorkerMetrics where
  worker_id : String
  status : String
  current_task_id : Option String := none
  tasks_completed : Nat := 0
  tasks_failed : Nat := 0
  avg_task_duration_seconds : ℚ := 0
  cpu_usage_percent : ℚ := 0
  memory_usage_mb : ℚ := 0
  queue_size : Nat := 0
  pending_tasks : Nat := 0
deriving DecidableEq, Repr

/-- `SystemResourceMetrics` dataclass. -/
structure SystemResourceMetrics where
  total_cpu_usage_percent : ℚ
  total_memory_usage_mb : ℚ
  available_memory_mb : ℚ
  active_worker_count : Int
  total_queue_size : Nat
  cpu_threshold : ℚ := 80
  memory_threshold_mb : ℚ := 1000
deriving DecidableEq, Repr

/-- `SchedulingDecision` dataclass (the free-form `estimated_impact` dict is
observability-only and omitted). -/
structure SchedulingDecision where
  action : ScalingAction
  current_workers : Int
  target_workers : Int
  reason : String
  confidence : ℚ
  risk_level : String := "low"
  potential_issues : List String := []
deriving DecidableEq, Repr

/-! ## DynamicWorkerScaler (`apiforge/scheduling/dynamic_scaler.py`)

Wall-clock instants are rationals (seconds); `psutil` readings and the live
worker census enter `evaluate_scaling_need` through the
`SystemResourceMetrics` argument. -/

/-- One entry of the scaling-history ring buffer. -/
structure ScalingRecord where
  timestamp : ℚ
  action : ScalingAction
  from_workers : Int
  to_workers : Int
deriving DecidableEq, Repr

/-- The mutable state of `DynamicWorkerScaler`.  `resource_history` holds the
timestamps of the recorded resource snapshots (most recent last); the
snapshots' metrics are only ever read through the current `worker_metrics`,
so the timestamps are all the history the algorithms consume. -/
structure DynamicWorkerScaler where
  min_workers : Int
  max_workers : Int
  scale_up_threshold : ℚ
  scale_down_threshold : ℚ
  monitoring_interval : Nat
  worker_metrics : List WorkerMetrics
  resource_history : List ℚ
  scaling_history : List ScalingRecord
  last_scaling_time : Option ℚ
  scaling_cooldown : ℚ
  consecutive_scale_attempts : Nat
deriving DecidableEq, Repr

/-- `DynamicWorkerScaler.__init__`: stores the five constructor arguments
verbatim — it performs no validation of any kind — and initialises the
bookkeeping state (cooldown fixed at 60 seconds). -/
def mkDynamicWorkerScaler (min_workers max_workers : Int)
    (scale_up_threshold scale_down_threshold : ℚ)
    (monitoring_interval : Nat) : DynamicWorkerScaler :=
  { min_workers := min_workers
    max_workers := max_workers
    scale_up_threshold := scale_up_threshold
    scale_down_threshold := scale_down_threshold
    monitoring_interval := monitoring_interval
    worker_metrics := []
    resource_history := []
    scaling_history := []
    last_scaling_time := none
    scaling_cooldown := 60
    consecutive_scale_attempts := 0 }

namespace DynamicWorkerScaler

/-- `_in_cooldown_period`. -/
def in_cooldown_period (s : DynamicWorkerScaler) (now : ℚ) : Bool :=
  match s.last_scaling_time with
  | none => false
  | some t => decide (now - t < s.scaling_cooldown)

/-- `_calculate_completion_rate`: compares the two most recent resource
snapshots; the "completed" figure is (a simplification kept by the source)
the current total of `tasks_completed` over the live worker metrics. -/
def calculate_completion_rate (s : DynamicWorkerScaler) : ℚ :=
  match s.resource_history.reverse with
  | recent :: previous :: _ =>
    let time_diff := recent - previous
    if time_diff = 0 then 0
    else
      let recent_completed : ℚ :=
        ((s.worker_metrics.map (fun m => (m.tasks_completed : ℚ))).sum)
      recent_completed / max time_diff 1
  | _ => 0

/-- `_calculate_queue_pressure`: average of the queue-usage ratio (capacity
100 per worker) and the time-to-drain pressure against a 5-minute target. -/
def calculate_queue_pressure (s : DynamicWorkerScaler) : ℚ :=
  if s.worker_metrics.isEmpty then 0
  else
    let total_pending : ℚ :=
      ((s.worker_metrics.map (fun m => (m.pending_tasks : ℚ))).sum)
    let total_capacity : ℚ := (s.worker_metrics.length : ℚ) * 100
    if total_capacity = 0 then 0
    else
      let completion_rate := s.calculate_completion_rate
      let time_pressure :=
        if completion_rate > 0 then
          min (total_pending / (completion_rate * 60) / 5) 1
        else if total_pending > 0 then (1 : ℚ) else 0
      let queue_usage := total_pending / total_capacity
      (queue_usage + time_pressure) / 2

/-- Result of `_check_resource_constraints` (the human-readable reason
strings are abstracted to short tags). -/
structure ResourceConstraints where
  at_limit : Bool
  cpu_limited : Bool
  memory_limited : Bool
  reasons : List String
deriving DecidableEq, Repr

/-- `_check_resource_constraints`. -/
def check_resource_constraints (metrics : SystemResourceMetrics) :
    ResourceConstraints :=
  let cpu_limited := decide (metrics.total_cpu_usage_percent > metrics.cpu_threshold)
  let memory_limited := decide (metrics.available_memory_mb < metrics.memory_threshold_mb)
  { at_limit := cpu_limited || memory_limited
    cpu_limited := cpu_limited
    memory_limited := memory_limited
    reasons := (if cpu_limited then ["cpu"] else []) ++
      (if memory_limited then ["memory"] else []) }

/-- `_create_decision` (a Maintain decision echoing the current count). -/
def create_decision (action : ScalingAction) (current_workers : Int)
    (reason : String) : SchedulingDecision :=
  { action := action
    current_workers := current_workers
    target_workers := current_workers
    reason := reason
    confidence := 0.95 }

/-- `_create_scale_up_decision`: +2 when pressure exceeds 0.9 (clipped to
the remaining headroom), otherwise +1. -/
def create_scale_up_decision (s : DynamicWorkerScaler) (current_workers : Int)
    (queue_pressure : ℚ) (rc : ResourceConstraints) : SchedulingDecision :=
  let scale_amount : Int :=
    if queue_pressure > 0.9 then min 2 (s.max_workers - current_workers)
    else 1
  { action := .scale_up
    current_workers := current_workers
    target_workers := current_workers + scale_amount
    reason := "High queue pressure"
    confidence := if rc.at_limit then 0.6 else 0.8
    risk_level := if scale_amount = 1 then "low" else "medium"
    potential_issues := rc.reasons }

/-- `_create_scale_down_decision`: always −1. -/
def create_scale_down_decision (current_workers : Int) (queue_pressure : ℚ) :
    SchedulingDecision :=
  { action := .scale_down
    current_workers := current_workers
    target_workers := current_workers - 1
    reason := "Low queue pressure"
    confidence := if queue_pressure < 0.1 then 0.9 else 0.7
    risk_level := "low" }

/-- The resource-history deque after appending the current snapshot
timestamp (`deque(maxlen=20)` keeps the 20 most recent entries). -/
def postHistory (s : DynamicWorkerScaler) (now : ℚ) : List ℚ :=
  (s.resource_history ++ [now]).drop ((s.resource_history ++ [now]).length - 20)

/-- The scaler state after `evaluate_scaling_need` has recorded the current
resource snapshot (the only state it mutates). -/
def postState (s : DynamicWorkerScaler) (now : ℚ) : DynamicWorkerScaler :=
  { s with resource_history := postHistory s now }

/-- `evaluate_scaling_need`.  The system snapshot (psutil CPU/memory, live
worker count) is the `sys` argument; the snapshot timestamp is appended to
the bounded resource history (maxlen 20) before any decision is made. -/
def evaluate_scaling_need (now : ℚ) (sys : SystemResourceMetrics)
    (s : DynamicWorkerScaler) : SchedulingDecision × DynamicWorkerScaler :=
  let s1 := postState s now
  if s1.in_cooldown_period now then
    (create_decision .maintain sys.active_worker_count "In cooldown period",
      s1)
  else
    let queue_pressure := s1.calculate_queue_pressure
    let rc := check_resource_constraints sys
    if queue_pressure > s1.scale_up_threshold ∧ rc.at_limit = false then
      if sys.active_worker_count < s1.max_workers then
        (s1.create_scale_up_decision sys.active_worker_count queue_pressure rc,
          s1)
      else
        (create_decision .maintain sys.active_worker_count
          "Queue pressure within thresholds", s1)
    else if queue_pressure < s1.scale_down_threshold then
      if sys.active_worker_count > s1.min_workers then
        (create_scale_down_decision sys.active_worker_count queue_pressure, s1)
      else
        (create_decision .maintain sys.active_worker_count
          "Queue pressure within thresholds", s1)
    else
      (create_decision .maintain sys.active_worker_count
        "Queue pressure within thresholds", s1)

/-- `execute_scaling`: Maintain is a no-op; otherwise the worker add/remove
is attempted (its success is the `op_success` argument, abstracting the
worker factory and stop calls) and, on success, the action is recorded in
the ring buffer, `last_scaling_time` is stamped, and the
consecutive-same-direction counter is updated. -/
def execute_scaling (d : SchedulingDecision) (op_success : Bool) (now : ℚ)
    (s : DynamicWorkerScaler) : Bool × DynamicWorkerScaler :=
  if d.action = .maintain then (true, s)
  else if op_success then
    let record : ScalingRecord :=
      { timestamp := now, action := d.action,
        from_workers := d.current_workers, to_workers := d.target_workers }
    let history := s.scaling_history ++ [record]
    let history := history.drop (history.length - 50)
    let consecutive :=
      if history.length > 1 then
        match (history.reverse).drop 1 with
        | prev :: _ =>
          if prev.action = d.action then s.consecutive_scale_attempts + 1
          else 1
        | [] => 1
      else 1
    (true,
      { s with
        scaling_history := history
        last_scaling_time := some now
        consecutive_scale_attempts := consecutive })
  else (false, s)

end DynamicWorkerScaler

/-! ## APIPattern and ProgressiveScheduler
(`apiforge/scheduling/models.py`, `apiforge/scheduling/progressive_scheduler.py`) -/

/-- `APIComplexityLevel` enum. -/
inductive APIComplexityLevel where
  | simple
  | medium
  | complex
  | very_complex
deriving DecidableEq, Repr

/-- Ordinal rank of a complexity level (the enum declaration order used by
Python's `max(base_level, ...)` comparisons on this enum are by definition
order in `_determine_complexity_level`; see `maxLevel` below). -/
def APIComplexityLevel.rank : APIComplexityLevel → Nat
  | .simple => 0
  | .medium => 1
  | .complex => 2
  | .very_complex => 3

/-- `ExecutionMode` enum. -/
inductive ExecutionMode where
  | auto
  | fast
  | smart
  | ai_analysis
deriving DecidableEq, Repr

/-- `ProgressivePhase` dataclass.  Of the `success_criteria` dict the phase
logic only ever reads the `throughput_improvement` entry, which is modelled
explicitly; the remaining entries are reporting-only. -/
structure ProgressivePhase where
  phase_name : String
  min_duration_seconds : Nat
  target_workers : Nat
  max_duration_seconds : Option Nat := none
  entry_conditions : List String := []
  exit_conditions : List String := []
  throughput_improvement_criterion : Option ℚ := none
deriving DecidableEq, Repr

/-! ## APIPatternMatcher (`apiforge/scheduling/api_pattern_matcher.py`)

Endpoints (`apiforge/parser/spec_parser.py`) are modelled with the fields the
matcher reads.  HTTP methods are their string values (`HttpMethod` is a
`str` enum).  Request-body schemas keep exactly the shape the matcher
inspects: the property type strings, the required-field count, and the
nesting structure. -/

/-- A JSON schema as inspected by the matcher: `properties` (name, type
string, nested schema), the length of the `required` list, and `items` for
arrays. -/
inductive JSchema where
  | node (stype : String) (properties : List (String × JSchema))
      (required_count : Nat) (items : Option JSchema)

/-- The type string of a schema. -/
def JSchema.stype : JSchema → String
  | .node t _ _ _ => t

/-- A request body: media/content description (its string form is what
`"multipart" in str(request_body)` inspects) plus the schema. -/
structure RequestBodyInfo where
  content_repr : String
  schema : JSchema

/-- A response; the matcher only asks whether it carries content. -/
structure ResponseInfo where
  has_content : Bool

/-- `EndpointInfo` restricted to the fields the matcher reads.  Parameters
are their names (the substring probes on `str(endpoint.query_parameters)`
are modelled on the joined names); `security` is the list of scheme
identifier strings whose textual form feeds the auth-diversity measure. -/
structure EndpointInfo where
  path : String
  method : String
  path_parameters : List String := []
  query_parameters : List String := []
  request_body : Option RequestBodyInfo := none
  responses : List ResponseInfo := []
  security : List String := []

/-- Python `str.split(sep)` for a one-character separator: the (possibly
empty) segments between occurrences of `sep`. -/
def splitChar (sep : Char) : List Char → List (List Char)
  | [] => [[]]
  | c :: rest =>
    if c == sep then [] :: splitChar sep rest
    else
      match splitChar sep rest with
      | s :: ss => (c :: s) :: ss
      | [] => [[c]]

/-! ### Path regular expressions

Each `re.match` against the archetype signature patterns is realised as a
character-level predicate (anchored at the start, as `re.match` is). -/

/-- Python's `\w` on ASCII input. -/
def isWordChar (c : Char) : Bool :=
  c.isAlpha || c.isDigit || c == '_'

/-- `re.match(r"/\w+/?$", path)`. -/
def matchResourceCollection (path : String) : Bool :=
  match path.toList with
  | '/' :: cs =>
    let w := cs.takeWhile isWordChar
    let rest := cs.dropWhile isWordChar
    (!w.isEmpty) && (rest.isEmpty || rest == ['/'])
  | _ => false

/-- `re.match(r"/\w+/\{\w+\}/?$", path)`. -/
def matchResourceItem (path : String) : Bool :=
  match path.toList with
  | '/' :: cs =>
    let w := cs.takeWhile isWordChar
    let rest := cs.dropWhile isWordChar
    (!w.isEmpty) &&
      match rest with
      | '/' :: '{' :: cs2 =>
        let w2 := cs2.takeWhile isWordChar
        let rest2 := cs2.dropWhile isWordChar
        (!w2.isEmpty) && (rest2 == ['}'] || rest2 == ['}', '/'])
      | _ => false
  | _ => false

/-- `re.match(r"/graphql/?$", path)`. -/
def matchGraphqlPath (path : String) : Bool :=
  path == "/graphql" || path == "/graphql/"

/-- `re.match(r"/\w+/\w+", path)` (unanchored at the end). -/
def matchServiceAction (path : String) : Bool :=
  match path.toList with
  | '/' :: cs =>
    let w := cs.takeWhile isWordChar
    let rest := cs.dropWhile isWordChar
    (!w.isEmpty) &&
      match rest with
      | '/' :: cs2 => !(cs2.takeWhile isWordChar).isEmpty
      | _ => false
  | _ => false

/-- `re.match(r"/api/\w+", path)` (unanchored at the end). -/
def matchApiPath (path : String) : Bool :=
  match path.toList with
  | '/' :: 'a' :: 'p' :: 'i' :: '/' :: cs => !(cs.takeWhile isWordChar).isEmpty
  | _ => false

/-- `re.match(r"/api/v\d+/\w+", path)` (unanchored at the end). -/
def matchVersionedApiPath (path : String) : Bool :=
  match path.toList with
  | '/' :: 'a' :: 'p' :: 'i' :: '/' :: 'v' :: cs =>
    let d := cs.takeWhile Char.isDigit
    let rest := cs.dropWhile Char.isDigit
    (!d.isEmpty) &&
      match rest with
      | '/' :: cs2 => !(cs2.takeWhile isWordChar).isEmpty
      | _ => false
  | _ => false

/-- One archetype signature from `APIPatternMatcher.pattern_signatures`. -/
structure PatternSignature where
  name : String
  required_methods : List String
  path_patterns : List (String → Bool)
  features : List String

/-- The `pattern_signatures` table, in dict insertion order. -/
def pattern_signatures : List PatternSignature :=
  [ { name := "RESTful CRUD"
      required_methods := ["GET", "POST", "PUT", "DELETE"]
      path_patterns := [matchResourceCollection, matchResourceItem]
      features := ["id_in_path", "standard_methods"] },
    { name := "GraphQL"
      required_methods := ["POST"]
      path_patterns := [matchGraphqlPath]
      features := ["single_endpoint", "query_in_body"] },
    { name := "RPC-style"
      required_methods := ["POST"]
      path_patterns := [matchServiceAction]
      features := ["action_in_path", "post_dominant"] },
    { name := "REST-like"
      required_methods := ["GET", "POST"]
      path_patterns := [matchApiPath]
      features := ["partial_rest", "mixed_patterns"] },
    { name := "Microservice"
      required_methods := ["GET", "POST", "PUT", "DELETE"]
      path_patterns := [matchVersionedApiPath]
      features := ["versioned", "domain_focused"] } ]

/-- `_extract_endpoint_features`. -/
def extract_endpoint_features (endpoints : List EndpointInfo) : List String :=
  let f1 :=
    if endpoints.any (fun ep => strIn "\x7b" ep.path && strIn "\x7d" ep.path) then
      ["id_in_path"] else []
  let standard := ["GET", "POST", "PUT", "DELETE", "PATCH"]
  let f2 :=
    if endpoints.all (fun ep => standard.contains ep.method) then
      ["standard_methods"] else []
  let f3 :=
    if (endpoints.map (fun ep => ep.path)).dedup.length == 1 then
      ["single_endpoint"] else []
  let post_count := endpoints.countP (fun ep => ep.method == "POST")
  let f4 :=
    if (post_count : ℚ) > (endpoints.length : ℚ) * 0.7 then
      ["post_dominant"] else []
  let f5 :=
    if endpoints.any (fun ep =>
        strIn "/v" ep.path && ep.path.toList.any Char.isDigit) then
      ["versioned"] else []
  let f6 :=
    if endpoints.any (fun ep =>
        (splitChar '/' ep.path.toList).length > 3 && ep.method == "POST") then
      ["action_in_path"] else []
  f1 ++ f2 ++ f3 ++ f4 ++ f5 ++ f6

/-- The score-and-confidence computation of `_identify_pattern` for one
signature. -/
def signatureConfidence (endpoints : List EndpointInfo)
    (sig : PatternSignature) : ℚ :=
  let methods := (endpoints.map (fun ep => ep.method)).dedup
  let paths := endpoints.map (fun ep => ep.path)
  let method_coverage : ℚ :=
    (sig.required_methods.countP (fun m => methods.contains m) : ℚ) /
      (sig.required_methods.length : ℚ)
  let score1 := method_coverage * 0.4
  let mc1 : Nat := if method_coverage > 0 then 1 else 0
  let path_matches := paths.countP (fun p => sig.path_patterns.any (fun f => f p))
  let path_score : ℚ :=
    min ((path_matches : ℚ) / (paths.length : ℚ)) 1
  let score2 := if paths.isEmpty then score1 else score1 + path_score * 0.3
  let mc2 := if paths.isEmpty then mc1
    else if path_score > 0.3 then mc1 + 1 else mc1
  let features := extract_endpoint_features endpoints
  let feature_matches := sig.features.countP (fun f => features.contains f)
  let feature_score : ℚ := (feature_matches : ℚ) / (sig.features.length : ℚ)
  let score3 := if sig.features.isEmpty then score2
    else score2 + feature_score * 0.3
  let mc3 := if sig.features.isEmpty then mc2
    else if feature_score > 0.5 then mc2 + 1 else mc2
  score3 * ((mc3 : ℚ) / 3)

/-- Python's `max(items, key=...)`: the first item attaining the maximum. -/
def firstMaxBy (f : α → ℚ) : List α → Option α
  | [] => none
  | a :: as =>
    match firstMaxBy f as with
    | none => some a
    | some m => if f m > f a then some m else some a

/-- `_identify_pattern`: score every archetype, pick the best (first wins on
ties), fall back to a generic archetype below confidence 0.3. -/
def identify_pattern (endpoints : List EndpointInfo) : String × ℚ :=
  match firstMaxBy (signatureConfidence endpoints) pattern_signatures with
  | none => ("Generic API", 0.5)
  | some sig =>
    let confidence := signatureConfidence endpoints sig
    if confidence < 0.3 then ("Generic API", 0.5)
    else (sig.name, confidence)

/-! ### Complexity metrics -/

/-- `ComplexityMetrics` dataclass. -/
structure ComplexityMetrics where
  endpoint_count : Nat
  method_distribution : List (String × Nat)
  parameter_complexity_score : ℚ
  auth_complexity_score : ℚ
  schema_depth_avg : ℚ
  business_dependency_score : ℚ
  overall_complexity : APIComplexityLevel
  estimated_test_cases_per_endpoint : Nat := 6
  estimated_total_processing_time_minutes : ℚ := 0

/-- `APIPattern` dataclass. -/
structure APIPattern where
  pattern_name : String
  confidence_score : ℚ
  complexity_metrics : ComplexityMetrics
  safe_start_workers : Nat := 2
  recommended_max_workers : Nat := 4
  optimal_workers : Nat := 3
  similar_apis_count : Nat := 0
  success_rate_with_recommended : ℚ := 0
  detected_features : List String := []
  risk_factors : List String := []

/-- `defaultdict(int)` counting of methods, in first-occurrence order. -/
def bumpCount (m : String) : List (String × Nat) → List (String × Nat)
  | [] => [(m, 1)]
  | (k, v) :: rest =>
    if k == m then (k, v + 1) :: rest else (k, v) :: bumpCount m rest

/-- The `method_distribution` dict of `_calculate_complexity_metrics`. -/
def methodDistribution (endpoints : List EndpointInfo) : List (String × Nat) :=
  endpoints.foldl (fun acc ep => bumpCount ep.method acc) []

/-- `statistics.mean` (callers guard against the empty list). -/
def qMean (l : List ℚ) : ℚ := l.sum / (l.length : ℚ)

/-- `_calculate_schema_complexity` (top-level property/required counts plus
a bonus per object- or array-typed property, capped at 10). -/
def schemaComplexity : JSchema → ℚ
  | .node _ props required_count _ =>
    let c1 := (props.length : ℚ) * 0.5
    let c2 := (required_count : ℚ) * 0.3
    let c3 := (props.map (fun p =>
      if p.2.stype == "object" then (1 : ℚ)
      else if p.2.stype == "array" then (0.8 : ℚ)
      else 0)).sum
    min (c1 + c2 + c3) 10

mutual

/-- `_calculate_schema_depth` re-rooted at depth 0: the number of nesting
steps down the deepest `properties`/`items` chain. -/
def JSchema.relDepth : JSchema → Nat
  | .node _ props _ none => listRelDepth props
  | .node _ props _ (some i) => max (listRelDepth props) (i.relDepth + 1)

/-- Depth contribution of a `properties` map. -/
def listRelDepth : List (String × JSchema) → Nat
  | [] => 0
  | p :: rest => max (p.2.relDepth + 1) (listRelDepth rest)

end

/-- The `str(...)` form of a parameter or security list, as probed for
substrings by the matcher; the probes only ever hit the member texts, which
is what this join exposes. -/
def listRepr (l : List String) : String :=
  "[" ++ String.intercalate ", " l ++ "]"

/-- `_calculate_auth_complexity`: share of secured endpoints plus diversity
of the character set of the security descriptors (`set.update` on a string
adds its characters). -/
def authComplexity (endpoints : List EndpointInfo) : ℚ :=
  let secured := endpoints.filter (fun e => !e.security.isEmpty)
  let auth_types :=
    ((secured.map (fun e => (listRepr e.security).toList)).flatten).dedup
  if endpoints.isEmpty then 0
  else
    let security_ratio := (secured.length : ℚ) / (endpoints.length : ℚ)
    let diversity_score := (auth_types.length : ℚ) * 2
    min (security_ratio * 5 + diversity_score) 10

/-- Whether a path segment begins with the given character (used for the
`part.startswith(...)` probes). -/
def segStarts (c : Char) : List Char → Bool
  | [] => false
  | a :: _ => a == c

/-- Path depth as counted by `_calculate_business_dependency`: non-empty
segments that are not `{...}` parameters. -/
def pathDepth (path : String) : Nat :=
  ((splitChar '/' path.toList).filter
    (fun p => !p.isEmpty && !segStarts '{' p)).length

/-- `_calculate_business_dependency`. -/
def businessDependency (endpoints : List EndpointInfo) : ℚ :=
  let path_depths := endpoints.map (fun e => (pathDepth e.path : ℚ))
  let unique_resources :=
    ((endpoints.map (fun e =>
      (splitChar '/' e.path.toList).filter (fun p =>
        !p.isEmpty && !segStarts '{' p && !segStarts 'v' p))).flatten).dedup
  let avg_depth := if path_depths.isEmpty then 0 else qMean path_depths
  min (avg_depth + (unique_resources.length : ℚ) * 0.5) 10

/-- `_determine_complexity_level`.  The two middle branches execute
`max(base_level, ·)` on `APIComplexityLevel`, a plain (unordered) `Enum`,
which raises `TypeError` in Python; this is modelled as an error result. -/
def determine_complexity_level (endpoint_count : Nat)
    (param_complexity auth_complexity schema_depth business_dependency : ℚ) :
    Except String APIComplexityLevel :=
  let weighted_score :=
    (endpoint_count : ℚ) * 0.002 +
      param_complexity * 0.20 +
      auth_complexity * 0.15 +
      schema_depth * 0.20 +
      business_dependency * 0.10
  if weighted_score < 3 then .ok .simple
  else if weighted_score < 5 then
    .error "TypeError: APIComplexityLevel is not ordered"
  else if weighted_score < 7 then
    .error "TypeError: APIComplexityLevel is not ordered"
  else .ok .very_complex

/-- `_estimate_test_cases_per_endpoint`. -/
def estimate_test_cases_per_endpoint : APIComplexityLevel → Nat
  | .simple => 5
  | .medium => 6
  | .complex => 8
  | .very_complex => 10

/-- `_estimate_processing_time`. -/
def estimate_processing_time (endpoint_count : Nat)
    (complexity : APIComplexityLevel) : ℚ :=
  let base_time : ℚ :=
    match complexity with
    | .simple => 0.5
    | .medium => 0.8
    | .complex => 1.2
    | .very_complex => 1.8
  let scale_factor : ℚ := if endpoint_count > 50 then 0.7 else 0.9
  let v := (endpoint_count : ℚ) * base_time * scale_factor
  ((v * 10).floor : ℚ) / 10 + (if (v * 10) - ((v * 10).floor : ℚ) ≥ 1/2 then (1 : ℚ)/10 else 0)

/-- Per-endpoint parameter score of `_calculate_complexity_metrics`. -/
def paramScore (e : EndpointInfo) : ℚ :=
  (e.path_parameters.length : ℚ) * 1 +
    (e.query_parameters.length : ℚ) * 0.8 +
    (match e.request_body with
     | some rb => schemaComplexity rb.schema * 1.5
     | none => 0)

/-- Schema depth samples contributed by one endpoint (request body depth;
each response with content contributes the fixed estimate 2). -/
def endpointDepths (e : EndpointInfo) : List ℚ :=
  (match e.request_body with
   | some rb => [(rb.schema.relDepth : ℚ)]
   | none => []) ++
    (e.responses.filter (fun r => r.has_content)).map (fun _ => (2 : ℚ))

/-- `_calculate_complexity_metrics`. -/
def calculate_complexity_metrics (endpoints : List EndpointInfo) :
    Except String ComplexityMetrics :=
  let method_distribution := methodDistribution endpoints
  let param_scores := endpoints.map paramScore
  let avg_param_complexity :=
    if param_scores.isEmpty then 0 else qMean param_scores
  let auth_complexity := authComplexity endpoints
  let schema_depths := (endpoints.map endpointDepths).flatten
  let avg_schema_depth :=
    if schema_depths.isEmpty then 1 else qMean schema_depths
  let business_dependency := businessDependency endpoints
  match determine_complexity_level endpoints.length avg_param_complexity
      auth_complexity avg_schema_depth business_dependency with
  | .error e => .error e
  | .ok overall_complexity =>
    .ok { endpoint_count := endpoints.length
          method_distribution := method_distribution
          parameter_complexity_score := min avg_param_complexity 10
          auth_complexity_score := auth_complexity
          schema_depth_avg := avg_schema_depth
          business_dependency_score := business_dependency
          overall_complexity := overall_complexity
          estimated_test_cases_per_endpoint :=
            estimate_test_cases_per_endpoint overall_complexity
          estimated_total_processing_time_minutes :=
            estimate_processing_time endpoints.length overall_complexity }

/-! ### Recommendations and ancillary outputs -/

/-- The result dict of `_calculate_recommendations`. -/
structure WorkerRecommendations where
  safe_start_workers : Nat
  optimal_workers : Nat
  recommended_max_workers : Nat
deriving DecidableEq, Repr

/-- The `base_recommendations` table as `(safe, optimal, max)`. -/
def baseRecommendations (pattern_name : String) : Nat × Nat × Nat :=
  if pattern_name == "RESTful CRUD" then (2, 3, 5)
  else if pattern_name == "GraphQL" then (2, 3, 4)
  else if pattern_name == "RPC-style" then (2, 3, 5)
  else if pattern_name == "REST-like" then (2, 3, 5)
  else if pattern_name == "Microservice" then (2, 4, 6)
  else (2, 3, 5)

/-- `_calculate_recommendations`: `safe` is the untouched base value;
`optimal` is adjusted but clamped at the archetype's own base max; only
`max` is clamped at the global ceiling 10. -/
def calculate_recommendations (pattern_name : String)
    (complexity : ComplexityMetrics) : WorkerRecommendations :=
  let base := baseRecommendations pattern_name
  let adjustment :=
    (match complexity.overall_complexity with
     | .simple => 0
     | .medium => 1
     | .complex => 2
     | .very_complex => 3) +
      (if complexity.endpoint_count > 100 then 2
       else if complexity.endpoint_count > 50 then 1
       else 0)
  { safe_start_workers := base.1
    optimal_workers := min (base.2.1 + adjustment) base.2.2
    recommended_max_workers := min (base.2.2 + adjustment) 10 }

/-- `_detect_features`. -/
def detect_features (endpoints : List EndpointInfo) : List String :=
  let f1 := if endpoints.any (fun e =>
      strIn "page" (listRepr e.query_parameters) ||
        strIn "limit" (listRepr e.query_parameters)) then ["pagination"] else []
  let f2 := if endpoints.any (fun e =>
      strIn "filter" (listRepr e.query_parameters) ||
        strIn "search" (listRepr e.query_parameters)) then ["filtering"] else []
  let f3 := if endpoints.any (fun e => !e.security.isEmpty) then
      ["authentication"] else []
  let f4 := if endpoints.any (fun e =>
      match e.request_body with
      | some rb => strIn "multipart" rb.content_repr
      | none => false) then ["file_upload"] else []
  let f5 := if endpoints.any (fun e =>
      strIn "batch" e.path || strIn "bulk" e.path) then
      ["batch_operations"] else []
  let f6 := if endpoints.any (fun e =>
      strIn "ws" e.path || strIn "websocket" e.path) then
      ["websocket"] else []
  f1 ++ f2 ++ f3 ++ f4 ++ f5 ++ f6

/-- `_identify_risk_factors`. -/
def identify_risk_factors (complexity : ComplexityMetrics) : List String :=
  let r1 := if complexity.overall_complexity = .complex ∨
      complexity.overall_complexity = .very_complex then
      ["high_complexity"] else []
  let r2 := if complexity.endpoint_count > 100 then ["large_api_surface"]
    else []
  let r3 := if complexity.schema_depth_avg > 5 then ["deep_nesting"] else []
  let r4 := if complexity.parameter_complexity_score > 7 then
      ["complex_parameters"] else []
  let r5 := if complexity.auth_complexity_score > 7 then
      ["complex_authentication"] else []
  let method_counts := complexity.method_distribution.map (fun p => p.2)
  let r6 := if !method_counts.isEmpty ∧
      ((method_counts.foldl max 0 : ℚ) / ((method_counts.sum : ℚ)) > 0.7) then
      ["unbalanced_methods"] else []
  r1 ++ r2 ++ r3 ++ r4 ++ r5 ++ r6

/-- Python `int(...)` truncation for the nonnegative rationals it is applied
to here. -/
def intTrunc (q : ℚ) : Nat := q.floor.toNat

/-- `_get_similar_apis_count`. -/
def get_similar_apis_count (pattern_name : String)
    (complexity : ComplexityMetrics) : Nat :=
  let base : Nat :=
    if pattern_name == "RESTful CRUD" then 150
    else if pattern_name == "GraphQL" then 45
    else if pattern_name == "RPC-style" then 80
    else if pattern_name == "REST-like" then 120
    else if pattern_name == "Microservice" then 95
    else if pattern_name == "Generic API" then 200
    else 50
  match complexity.overall_complexity with
  | .simple => intTrunc ((base : ℚ) * 1.2)
  | .very_complex => intTrunc ((base : ℚ) * 0.6)
  | _ => base

/-- The `historical_success_rates` table as `(2, 3, 4)`-worker rates. -/
def historicalRates (pattern_name : String) : Option (ℚ × ℚ × ℚ) :=
  if pattern_name == "RESTful CRUD" then some (0.85, 0.92, 0.95)
  else if pattern_name == "GraphQL" then some (0.88, 0.90, 0.91)
  else if pattern_name == "RPC-style" then some (0.82, 0.88, 0.90)
  else if pattern_name == "REST-like" then some (0.80, 0.87, 0.89)
  else if pattern_name == "Microservice" then some (0.83, 0.90, 0.93)
  else none

/-- `_get_success_rate`. -/
def get_success_rate (pattern_name : String) (worker_count : Nat) : ℚ :=
  match historicalRates pattern_name with
  | none => 0.85
  | some rates =>
    if worker_count = 2 then rates.1
    else if worker_count = 3 then rates.2.1
    else if worker_count = 4 then rates.2.2
    else if worker_count < 2 then 0.75
    else if worker_count > 4 then
      min (rates.2.2 + ((worker_count : ℚ) - 4) * 0.01) 0.98
    else 0.85

/-- `APIPatternMatcher.analyze_api`: the complete analysis pipeline. -/
def analyze_api (endpoints : List EndpointInfo) : Except String APIPattern :=
  match calculate_complexity_metrics endpoints with
  | .error e => .error e
  | .ok complexity_metrics =>
    let pc := identify_pattern endpoints
    let recommendations := calculate_recommendations pc.1 complexity_metrics
    let detected_features := detect_features endpoints
    let risk_factors := identify_risk_factors complexity_metrics
    let similar_apis_count := get_similar_apis_count pc.1 complexity_metrics
    let success_rate :=
      get_success_rate pc.1 recommendations.optimal_workers
    .ok { pattern_name := pc.1
          confidence_score := pc.2
          complexity_metrics := complexity_metrics
          safe_start_workers := recommendations.safe_start_workers
          recommended_max_workers := recommendations.recommended_max_workers
          optimal_workers := recommendations.optimal_workers
          similar_apis_count := similar_apis_count
          success_rate_with_recommended := success_rate
          detected_features := detected_features
          risk_factors := risk_factors }

/-- Ambient process state a Python function could covertly consult: the wall
clock and the random-number state.  `analyze_api` contains no
`datetime`/`time`/`random` call, so its embedding simply ignores this
state; threading it makes the independence provable rather than implicit. -/
structure Ambient where
  wall_clock : ℚ
  random_seed : Nat

/-- `analyze_api` as run inside a process with ambient state `amb`. -/
def analyze_api_ambient (_amb : Ambient) (endpoints : List EndpointInfo) :
    Except String APIPattern :=
  analyze_api endpoints

/-! ## ProgressiveScheduler (`apiforge/scheduling/progressive_scheduler.py`)

Wall-clock instants are rationals.  `performance_history` keeps, of each
recorded sample, the throughput figure — the only field the phase-transition
predicates read. -/

/-- `ProgressiveScheduler` mutable state. -/
structure ProgressiveScheduler where
  execution_mode : ExecutionMode
  api_pattern : APIPattern
  phases : List ProgressivePhase
  current_phase_index : Nat
  phase_start_time : Option ℚ
  performance_history : List ℚ

/-- `_calculate_stable_workers`: midway between optimal and recommended max
(integer division). -/
def calculate_stable_workers (p : APIPattern) : Nat :=
  p.optimal_workers + (p.recommended_max_workers - p.optimal_workers) / 2

/-- `_initialize_phases`. -/
def initialize_phases (mode : ExecutionMode) (p : APIPattern) :
    List ProgressivePhase :=
  match mode with
  | .fast =>
    [ { phase_name := "fast_execution"
        min_duration_seconds := 0
        target_workers := p.recommended_max_workers
        entry_conditions := ["immediate"]
        exit_conditions := ["all_tasks_completed"] } ]
  | .smart =>
    [ { phase_name := "dynamic"
        min_duration_seconds := 0
        target_workers := p.optimal_workers
        entry_conditions := ["immediate"]
        exit_conditions := ["all_tasks_completed"] } ]
  | _ =>
    [ { phase_name := "exploration"
        min_duration_seconds := 180
        max_duration_seconds := some 360
        target_workers := p.safe_start_workers
        entry_conditions := ["start"]
        exit_conditions := ["min_duration_reached", "stable_performance"] },
      { phase_name := "optimization"
        min_duration_seconds := 300
        max_duration_seconds := some 600
        target_workers := p.optimal_workers
        entry_conditions := ["exploration_completed", "system_stable"]
        exit_conditions := ["optimal_performance_reached",
          "diminishing_returns"]
        throughput_improvement_criterion := some 0.2 },
      { phase_name := "stabilization"
        min_duration_seconds := 0
        target_workers := calculate_stable_workers p
        entry_conditions := ["optimization_completed"]
        exit_conditions := ["all_tasks_completed"] } ]

/-- `ProgressiveScheduler.__init__`. -/
def mkProgressiveScheduler (mode : ExecutionMode) (p : APIPattern) :
    ProgressiveScheduler :=
  { execution_mode := mode
    api_pattern := p
    phases := initialize_phases mode p
    current_phase_index := 0
    phase_start_time := none
    performance_history := [] }

namespace ProgressiveScheduler

/-- `get_current_phase`. -/
def get_current_phase (ps : ProgressiveScheduler) : Option ProgressivePhase :=
  ps.phases.get? ps.current_phase_index

/-- The last `n` entries of a history list (`history[-n:]`). -/
def lastN (n : Nat) (l : List ℚ) : List ℚ := l.drop (l.length - n)

/-- `_is_performance_stable`: variance of the last 3 throughput samples
below (10% of their mean)². -/
def is_performance_stable (ps : ProgressiveScheduler) : Bool :=
  if ps.performance_history.length < 3 then false
  else
    let recent := lastN 3 ps.performance_history
    if recent.isEmpty then false
    else
      let avg := qMean recent
      let variance := ((recent.map (fun x => (x - avg) ^ 2)).sum) /
        (recent.length : ℚ)
      decide (variance < (avg * 0.1) ^ 2)

/-- `_is_performance_optimal`: throughput improvement over the phase start
meets the phase's `throughput_improvement` criterion. -/
def is_performance_optimal (ps : ProgressiveScheduler) : Bool :=
  match ps.get_current_phase with
  | none => false
  | some phase =>
    match phase.throughput_improvement_criterion with
    | none => false
    | some target_improvement =>
      if ps.performance_history.length < 2 then false
      else
        match ps.performance_history.head?,
            (ps.performance_history.reverse).head? with
        | some initial_throughput, some current_throughput =>
          if initial_throughput = 0 then false
          else
            decide ((current_throughput - initial_throughput) /
              initial_throughput ≥ target_improvement)
        | _, _ => false

/-- Consecutive relative improvements over a window, skipping pairs with a
nonpositive base (`_has_diminishing_returns` inner loop). -/
def pairImprovements : List ℚ → List ℚ
  | a :: b :: rest =>
    (if a > 0 then [(b - a) / a] else []) ++ pairImprovements (b :: rest)
  | _ => []

/-- `_has_diminishing_returns`: average improvement over the last 5 samples
below 2%. -/
def has_diminishing_returns (ps : ProgressiveScheduler) : Bool :=
  if ps.performance_history.length < 5 then false
  else
    let recent := lastN 5 ps.performance_history
    let improvements := pairImprovements recent
    if improvements.isEmpty then false
    else decide (qMean improvements < 0.02)

/-- Total pending tasks over the worker metrics. -/
def sumPending (metrics : List WorkerMetrics) : Nat :=
  (metrics.map (fun m => m.pending_tasks)).sum

/-- `_check_exit_condition`. -/
def check_exit_condition (ps : ProgressiveScheduler) (now : ℚ)
    (condition : String) (metrics : List WorkerMetrics) : Bool :=
  if condition == "min_duration_reached" then
    match ps.phase_start_time, ps.get_current_phase with
    | some start, some phase =>
      decide (now - start ≥ (phase.min_duration_seconds : ℚ))
    | _, _ => false
  else if condition == "stable_performance" then
    ps.is_performance_stable
  else if condition == "optimal_performance_reached" then
    ps.is_performance_optimal
  else if condition == "diminishing_returns" then
    ps.has_diminishing_returns
  else if condition == "all_tasks_completed" then
    decide (sumPending metrics = 0)
  else false

/-- `should_transition`. -/
def should_transition (ps : ProgressiveScheduler) (now : ℚ)
    (metrics : List WorkerMetrics) : Bool :=
  match ps.get_current_phase with
  | none => false
  | some phase =>
    let duration_verdict : Option Bool :=
      match ps.phase_start_time with
      | some start =>
        let elapsed := now - start
        if elapsed < (phase.min_duration_seconds : ℚ) then some false
        else
          match phase.max_duration_seconds with
          | some mx => if elapsed > (mx : ℚ) then some true else none
          | none => none
      | none => none
    match duration_verdict with
    | some b => b
    | none =>
      phase.exit_conditions.any
        (fun c => ps.check_exit_condition now c metrics)

/-- `transition_to_next_phase` (metric snapshotting is reporting-only and
omitted): advances the phase pointer and restarts the phase timer; refuses
on the last phase. -/
def transition_to_next_phase (ps : ProgressiveScheduler) (now : ℚ) :
    Bool × ProgressiveScheduler :=
  if ps.current_phase_index ≥ ps.phases.length - 1 then (false, ps)
  else
    (true, { ps with
      current_phase_index := ps.current_phase_index + 1
      phase_start_time := some now })

/-- The number of workers currently processing a task, as reported by the
worker metrics (each busy worker carries its `current_task_id`). -/
def inProgressCount (metrics : List WorkerMetrics) : Nat :=
  metrics.countP (fun m => m.current_task_id.isSome)

end ProgressiveScheduler

/-! ## Settings validation (`apiforge/config.py`)

Only the worker-scaling threshold fields take part in the construction-time
check at issue; the pydantic field constraints (`ge`/`le`) and the
`validate_thresholds` model validator are replayed in declaration order. -/

/-- The scheduling slice of `Settings`. -/
structure Settings where
  worker_scale_up_threshold : ℚ
  worker_scale_down_threshold : ℚ
deriving DecidableEq, Repr

/-- `Settings(...)` construction: pydantic checks
`worker_scale_up_threshold ∈ [0.1, 1.0]` and
`worker_scale_down_threshold ∈ [0.0, 0.9]`, then runs `validate_thresholds`,
which rejects `down ≥ up`. -/
def mkSettings (up down : ℚ) : Except String Settings :=
  if ¬(0.1 ≤ up ∧ up ≤ 1.0) then
    .error "worker_scale_up_threshold out of range"
  else if ¬(0 ≤ down ∧ down ≤ 0.9) then
    .error "worker_scale_down_threshold out of range"
  else if down ≥ up then
    .error "Scale down threshold must be less than scale up threshold"
  else
    .ok { worker_scale_up_threshold := up, worker_scale_down_threshold := down }

/-! ## Concrete instances used by witnesses and counterexamples -/

/-- A minimal endpoint with just a method and a path. -/
def mkEp (m p : String) : EndpointInfo := { path := p, method := m }

/-- The five standard CRUD endpoints over one resource. -/
def crudEps (res : String) : List EndpointInfo :=
  [ mkEp "GET" ("/" ++ res), mkEp "POST" ("/" ++ res),
    { path := "/" ++ res ++ "/{id}", method := "GET",
      path_parameters := ["id"] },
    { path := "/" ++ res ++ "/{id}", method := "PUT",
      path_parameters := ["id"] },
    { path := "/" ++ res ++ "/{id}", method := "DELETE",
      path_parameters := ["id"] } ]

/-- 15 endpoints spanning GET/POST/PUT/DELETE with `{id}`-style path
parameters. -/
def crud15 : List EndpointInfo :=
  crudEps "users" ++ crudEps "orders" ++ crudEps "products"

/-- A 60-endpoint CRUD workload (12 resources). -/
def crud60 : List EndpointInfo :=
  ((List.range 12).map (fun i => crudEps ("res" ++ toString i))).flatten

/-- A busy worker snapshot: 90 pending tasks, none completed yet. -/
def busyMetrics : WorkerMetrics :=
  { worker_id := "w1", status := "running", pending_tasks := 90 }

/-- A scaler with bounds 1–5 and default thresholds observing `busyMetrics`
(queue pressure works out to exactly 0.95). -/
def pressuredScaler : DynamicWorkerScaler :=
  { mkDynamicWorkerScaler 1 5 0.7 0.3 30 with worker_metrics := [busyMetrics] }

/-- A healthy host snapshot with 3 live workers. -/
def healthySys3 : SystemResourceMetrics :=
  { total_cpu_usage_percent := 50, total_memory_usage_mb := 500,
    available_memory_mb := 2000, active_worker_count := 3,
    total_queue_size := 90 }

/-- A healthy host snapshot with no live workers. -/
def healthySys0 : SystemResourceMetrics :=
  { total_cpu_usage_percent := 50, total_memory_usage_mb := 500,
    available_memory_mb := 2000, active_worker_count := 0,
    total_queue_size := 0 }

/-- A freshly constructed scaler with bounds 1–10 and default thresholds. -/
def freshScaler : DynamicWorkerScaler := mkDynamicWorkerScaler 1 10 0.7 0.3 30

/-- Trivial complexity metrics for building sample `APIPattern` values. -/
def sampleComplexity : ComplexityMetrics :=
  { endpoint_count := 0, method_distribution := []
    parameter_complexity_score := 0, auth_complexity_score := 0
    schema_depth_avg := 1, business_dependency_score := 0
    overall_complexity := .simple }

/-- A sample analysis result. -/
def samplePattern : APIPattern :=
  { pattern_name := "Generic API", confidence_score := 0.5
    complexity_metrics := sampleComplexity }

/-- One worker that has drained its backlog but is still busy on a task. -/
def drainedBusyMetrics : List WorkerMetrics :=
  [ { worker_id := "w1", status := "running",
      current_task_id := some "task-1", pending_tasks := 0 } ]

/-! ## Derived definitions used by the verification -/

/-- The session's progress row, if present. -/
def progressOf (st : DBState) (sid : String) : Option Progress :=
  (st.progress.find? (fun r => r.1 == sid)).map (fun r => r.2)

/-- A scheduler sitting in the terminal Stabilization phase of the standard
three-phase (AUTO) plan. -/
def stabilizationState (p : APIPattern) (start : ℚ) (hist : List ℚ) :
    ProgressiveScheduler :=
  { execution_mode := .auto
    api_pattern := p
    phases := initialize_phases .auto p
    current_phase_index := 2
    phase_start_time := some start
    performance_history := hist }

namespace DynamicWorkerScaler

/-- The decision component of `evaluate_scaling_need`, laid out branch by
branch. -/
def decisionOf (now : ℚ) (sys : SystemResourceMetrics)
    (s : DynamicWorkerScaler) : SchedulingDecision :=
  if (postState s now).in_cooldown_period now then
    create_decision .maintain sys.active_worker_count "In cooldown period"
  else if (postState s now).calculate_queue_pressure >
        (postState s now).scale_up_threshold ∧
      (check_resource_constraints sys).at_limit = false then
    if sys.active_worker_count < (postState s now).max_workers then
      (postState s now).create_scale_up_decision sys.active_worker_count
        ((postState s now).calculate_queue_pressure)
        (check_resource_constraints sys)
    else
      create_decision .maintain sys.active_worker_count
        "Queue pressure within thresholds"
  else if (postState s now).calculate_queue_pressure <
      (postState s now).scale_down_threshold then
    if sys.active_worker_count > (postState s now).min_workers then
      create_scale_down_decision sys.active_worker_count
        ((postState s now).calculate_queue_pressure)
    else
      create_decision .maintain sys.active_worker_count
        "Queue pressure within thresholds"
  else
    create_decision .maintain sys.active_worker_count
      "Queue pressure within thresholds"

end DynamicWorkerScaler

/-- The complexity/size adjustment actually applied by
`_calculate_recommendations` (strict `> 50` / `> 100` thresholds). -/
def recommendationAdjustment (complexity : ComplexityMetrics) : Nat :=
  (match complexity.overall_complexity with
   | .simple => 0
   | .medium => 1
   | .complex => 2
   | .very_complex => 3) +
    (if complexity.endpoint_count > 100 then 2
     else if complexity.endpoint_count > 50 then 1
     else 0)

/-- The recommendation rule as the claim words it (for comparison with the
source): every bound — safe_start included — is the archetype base value
plus the complexity-level adjustment plus the item-count adjustment
(at least 50 items adds +1, at least 100 adds +2), clamped at the global
ceiling 10. -/
def claimedRecommendedBounds (pattern_name : String)
    (complexity : ComplexityMetrics) : WorkerRecommendations :=
  let base := baseRecommendations pattern_name
  let adjustment :=
    (match complexity.overall_complexity with
     | .simple => 0
     | .medium => 1
     | .complex => 2
     | .very_complex => 3) +
      (if complexity.endpoint_count ≥ 100 then 2
       else if complexity.endpoint_count ≥ 50 then 1
       else 0)
  { safe_start_workers := min (base.1 + adjustment) 10
    optimal_workers := min (base.2.1 + adjustment) 10
    recommended_max_workers := min (base.2.2 + adjustment) 10 }

/-- Invariant of a queue state built from fresh enqueues (all indexed tasks
still pending, all rows already due, strictly monotone enqueue stamps,
distinct ids) with only Critical/Normal priorities present. -/
structure QueueInv (now : Nat) (st : DBState) : Prop where
  avail : ∀ q ∈ st.queue, q.scheduled_at ≤ now
  linked : ∀ q ∈ st.queue, ∃ t, findTask st q.task_id = some t ∧
    t.status = TaskStatus.pending
  prios : ∀ q ∈ st.queue, q.priority = 1 ∨ q.priority = 3
  times : st.queue.Pairwise (fun a b => a.scheduled_at < b.scheduled_at)
  tids : st.queue.Pairwise (fun a b => a.task_id ≠ b.task_id)
  qids : st.queue.Pairwise (fun a b => a.queue_id ≠ b.queue_id)

/-- Invariant of the state during a batch of enqueues: like `QueueInv` but
relative to the advancing clock; queue ids stay below the autoincrement
counter. -/
structure EnqInv (st : DBState) (bound : Nat) : Prop where
  sched_lt : ∀ q ∈ st.queue, q.scheduled_at < bound
  linked : ∀ q ∈ st.queue, ∃ t, findTask st q.task_id = some t ∧
    t.status = TaskStatus.pending
  prios : ∀ q ∈ st.queue, q.priority = 1 ∨ q.priority = 3
  times : st.queue.Pairwise (fun a b => a.scheduled_at < b.scheduled_at)
  tids : st.queue.Pairwise (fun a b => a.task_id ≠ b.task_id)
  qids : st.queue.Pairwise (fun a b => a.queue_id ≠ b.queue_id)
  qid_lt : ∀ q ∈ st.queue, q.queue_id < st.next_queue_id

/-- A 105-item batch: 100 normal tasks with five critical tasks interleaved
among them. -/
def scenarioOps : List (String × TaskPriority) :=
  ((List.range' 0 40).map (fun i =>
      ("n" ++ toString i, TaskPriority.normal))) ++
    [("c1", TaskPriority.critical)] ++
    ((List.range' 40 20).map (fun i =>
      ("n" ++ toString i, TaskPriority.normal))) ++
    [("c2", TaskPriority.critical), ("c3", TaskPriority.critical)] ++
    ((List.range' 60 30).map (fun i =>
      ("n" ++ toString i, TaskPriority.normal))) ++
    [("c4", TaskPriority.critical)] ++
    ((List.range' 90 10).map (fun i =>
      ("n" ++ toString i, TaskPriority.normal))) ++
    [("c5", TaskPriority.critical)]

/-! ## Theorems -/

/-! ### C3 — retry budget and permanent failure -/

theorem failingAttempt_recoverable_step (n : Nat) (ty m : String) (t : Task)
    (hrec : is_recoverable_error m = true)
    (hlt : t.retry_count < t.max_retries) :
    (failingAttempt n ty m t).status = TaskStatus.retrying ∧
      (failingAttempt n ty m t).retry_count = t.retry_count + 1 ∧
      (failingAttempt n ty m t).max_retries = t.max_retries := by
  simp [failingAttempt, Task.mark_failed, Task.mark_in_progress, hrec, hlt]

theorem failingAttempt_exhausted (n : Nat) (ty m : String) (t : Task)
    (hlt : ¬ t.retry_count < t.max_retries) :
    (failingAttempt n ty m t).status = TaskStatus.failed := by
  simp [failingAttempt, Task.mark_failed, Task.mark_in_progress, hlt]

theorem failingAttempt_permanent (n : Nat) (ty m : String) (t : Task)
    (hrec : is_recoverable_error m = false) :
    (failingAttempt n ty m t).status = TaskStatus.failed ∧
      (failingAttempt n ty m t).last_error = some
        { timestamp := n, error_type := ty, error_message := m,
          recoverable := false,
          retry_after_seconds :=
            some (t.retry_delay_seconds * 2 ^ t.retry_count) } := by
  constructor <;>
    simp [failingAttempt, Task.mark_failed, Task.mark_in_progress, hrec]

/-- **C3.** A task with `max_retries = 3` whose processing fails with a
recoverable error on four consecutive attempts is `retrying` after each of
the first three failures and `failed` after the fourth; any task failing
once with a non-recoverable error is `failed` immediately, whatever its
retry budget, with the error retained as `last_error`. -/
theorem c3_retry_budget_and_permanent_failure
    (t : Task) (h_max : t.max_retries = 3) (h_rc : t.retry_count = 0)
    (n1 n2 n3 n4 : Nat) (ty1 ty2 ty3 ty4 m1 m2 m3 m4 : String)
    (h1 : is_recoverable_error m1 = true)
    (h2 : is_recoverable_error m2 = true)
    (h3 : is_recoverable_error m3 = true)
    (_h4 : is_recoverable_error m4 = true) :
    (failingAttempt n1 ty1 m1 t).status = TaskStatus.retrying ∧
    (failingAttempt n2 ty2 m2 (failingAttempt n1 ty1 m1 t)).status
      = TaskStatus.retrying ∧
    (failingAttempt n3 ty3 m3 (failingAttempt n2 ty2 m2
      (failingAttempt n1 ty1 m1 t))).status = TaskStatus.retrying ∧
    (failingAttempt n4 ty4 m4 (failingAttempt n3 ty3 m3
      (failingAttempt n2 ty2 m2 (failingAttempt n1 ty1 m1 t)))).status
      = TaskStatus.failed ∧
    (∀ (u : Task) (n : Nat) (ty m : String),
      is_recoverable_error m = false →
      (failingAttempt n ty m u).status = TaskStatus.failed ∧
        ∃ e, (failingAttempt n ty m u).last_error = some e ∧
          e.error_message = m ∧ e.recoverable = false) := by
  obtain ⟨s1, r1, x1⟩ := failingAttempt_recoverable_step n1 ty1 m1 t h1
    (by omega)
  obtain ⟨s2, r2, x2⟩ :=
    failingAttempt_recoverable_step n2 ty2 m2 (failingAttempt n1 ty1 m1 t) h2
      (by omega)
  obtain ⟨s3, r3, x3⟩ :=
    failingAttempt_recoverable_step n3 ty3 m3
      (failingAttempt n2 ty2 m2 (failingAttempt n1 ty1 m1 t)) h3 (by omega)
  refine ⟨s1, s2, s3,
    failingAttempt_exhausted n4 ty4 m4
      (failingAttempt n3 ty3 m3 (failingAttempt n2 ty2 m2
        (failingAttempt n1 ty1 m1 t))) (by omega), ?_⟩
  intro u n ty m hm
  obtain ⟨hs, he⟩ := failingAttempt_permanent n ty m u hm
  exact ⟨hs, _, he, rfl, rfl⟩

/-- Witness for C3 at a concrete task: three timeouts then a fourth, and a
separate permanent validation error. -/
theorem c3_witness :
    (failingAttempt 1 "TimeoutError" "timeout" (mkTask "t" "s" .normal 0)).status
        = TaskStatus.retrying ∧
      (failingAttempt 4 "TimeoutError" "timeout"
        (failingAttempt 3 "TimeoutError" "timeout"
          (failingAttempt 2 "TimeoutError" "timeout"
            (failingAttempt 1 "TimeoutError" "timeout"
              (mkTask "t" "s" .normal 0))))).status = TaskStatus.failed ∧
      (failingAttempt 1 "ValueError" "invalid schema"
        (mkTask "u" "s" .normal 0)).status = TaskStatus.failed := by
  have h := c3_retry_budget_and_permanent_failure (mkTask "t" "s" .normal 0)
    (by decide) (by decide) 1 2 3 4 "TimeoutError" "TimeoutError"
    "TimeoutError" "TimeoutError" "timeout" "timeout" "timeout" "timeout"
    (by decide) (by decide) (by decide) (by decide)
  exact ⟨h.1, h.2.2.2.1,
    (h.2.2.2.2 (mkTask "u" "s" .normal 0) 1 "ValueError" "invalid schema"
      (by decide)).1⟩

/-! ### C4 — requeue demotes priority and reschedules -/

theorem updateProgress_find (sid : String)
    (pd prd cd fd : Int) (now : Nat) (rows : List (String × Progress)) :
    ((updateProgress sid pd prd cd fd now rows).find?
        (fun r => r.1 == sid)).map (fun r => r.2) =
      ((rows.find? (fun r => r.1 == sid)).map (fun r =>
        { pending_tasks := r.2.pending_tasks + pd
          processing_tasks := r.2.processing_tasks + prd
          completed_tasks := r.2.completed_tasks + cd
          failed_tasks := r.2.failed_tasks + fd
          total_tasks := r.2.pending_tasks + r.2.processing_tasks
            + r.2.completed_tasks + r.2.failed_tasks
          last_update := now })) := by
  induction rows with
  | nil => simp [updateProgress]
  | cons a l ih =>
    by_cases h : a.1 == sid
    · simp [updateProgress, List.find?, h]
    · simpa [updateProgress, List.find?, h] using ih

/-- **C4.** `requeue` appends a queue row scheduled at `now + delay` whose
priority is the task's demoted by exactly one tier and capped at `DEFERRED`;
the stored task becomes `retrying`; the session swaps one processing for one
pending counter. -/
theorem c4_requeue_demotes_and_reschedules
    (now delay : Nat) (t : Task) (st : DBState) :
    (requeue now delay t st).queue = st.queue ++
      [⟨st.next_queue_id, t.task_id, t.session_id,
        min (t.priority.value + 1) TaskPriority.deferred.value,
        now + delay⟩] ∧
    min (t.priority.value + 1) TaskPriority.deferred.value =
      (if t.priority = TaskPriority.deferred
        then TaskPriority.deferred.value
        else t.priority.value + 1) ∧
    (∀ u ∈ (requeue now delay t st).tasks,
      u.task_id = t.task_id → u.status = TaskStatus.retrying) ∧
    (∀ p, progressOf st t.session_id = some p →
      progressOf (requeue now delay t st) t.session_id = some
        { pending_tasks := p.pending_tasks + 1
          processing_tasks := p.processing_tasks - 1
          completed_tasks := p.completed_tasks
          failed_tasks := p.failed_tasks
          total_tasks := p.pending_tasks + p.processing_tasks
            + p.completed_tasks + p.failed_tasks
          last_update := now }) := by
  refine ⟨rfl, by cases t.priority <;> decide, ?_, ?_⟩
  · intro u hu hid
    simp only [requeue, updateTask, List.mem_map] at hu
    obtain ⟨v, _, rfl⟩ := hu
    by_cases h : v.task_id == t.task_id
    · simp [h]
    · simp only [h, if_false] at hid ⊢
      exact absurd (by exact beq_iff_eq.mpr hid) (by simpa using h)
  · intro p hp
    have := updateProgress_find t.session_id 1 (-1) 0 0 now st.progress
    simp only [progressOf, requeue] at hp ⊢
    rw [this]
    simp only [Option.map_eq_some'] at hp
    obtain ⟨r, hr, hrp⟩ := hp
    simp [hr, hrp]
    omega

/-- Witness for C4: requeuing a normal-priority in-progress task with a 5
second delay. -/
theorem c4_witness :
    (requeue 10 5 (mkTask "a" "s" .normal 0)
        ⟨[mkTask "a" "s" .normal 0], [], 7, [("s", {})]⟩).queue =
      [⟨7, "a", "s", 4, 15⟩] ∧
    progressOf (requeue 10 5 (mkTask "a" "s" .normal 0)
        ⟨[mkTask "a" "s" .normal 0], [], 7, [("s", {})]⟩) "s" = some
      { pending_tasks := 1, processing_tasks := -1, completed_tasks := 0
        failed_tasks := 0, total_tasks := 0, last_update := 10 } := by
  have h := c4_requeue_demotes_and_reschedules 10 5
    (mkTask "a" "s" .normal 0)
    ⟨[mkTask "a" "s" .normal 0], [], 7, [("s", {})]⟩
  exact ⟨h.1, h.2.2.2 {} (by decide)⟩

/-! ### C10 — cancellation support in the two queue implementations -/

/-- **C10.** The persist-queue-backed `cancel_task` returns `False` for every
task id and leaves the state untouched; the SQLite-backed `cancel_task`
succeeds exactly on tasks currently `pending` or `retrying` (removing their
queue row and marking them cancelled) and refuses all others without any
state change. -/
theorem c10_cancel_semantics :
    (∀ (σ : Type) (q : σ) (tid : String),
      persistentCancelTask q tid = (false, q)) ∧
    (∀ (st : DBState) (tid : String),
      ((sqliteCancelTask tid st).1 = true ↔
        ∃ t, findTask st tid = some t ∧
          (t.status = TaskStatus.pending ∨ t.status = TaskStatus.retrying)) ∧
      ((sqliteCancelTask tid st).1 = false → (sqliteCancelTask tid st).2 = st) ∧
      (∀ t, findTask st tid = some t →
        (t.status = TaskStatus.pending ∨ t.status = TaskStatus.retrying) →
        sqliteCancelTask tid st = (true,
          { st with
            queue := st.queue.filter (fun r => r.task_id != tid)
            tasks := updateTask { t with status := TaskStatus.cancelled }
              st.tasks }))) := by
  have lem_none : ∀ (st : DBState) (tid : String),
      findTask st tid = none → sqliteCancelTask tid st = (false, st) := by
    intro st tid hf; simp [sqliteCancelTask, hf]
  have lem_refuse : ∀ (st : DBState) (tid : String) (t : Task),
      findTask st tid = some t →
      ¬(t.status = TaskStatus.pending ∨ t.status = TaskStatus.retrying) →
      sqliteCancelTask tid st = (false, st) := by
    intro st tid t hf hs
    have h : t.status ≠ TaskStatus.pending ∧
        t.status ≠ TaskStatus.retrying :=
      ⟨fun h1 => hs (Or.inl h1), fun h2 => hs (Or.inr h2)⟩
    simp [sqliteCancelTask, hf, h]
  have lem_ok : ∀ (st : DBState) (tid : String) (t : Task),
      findTask st tid = some t →
      (t.status = TaskStatus.pending ∨ t.status = TaskStatus.retrying) →
      sqliteCancelTask tid st = (true,
        { st with
          queue := st.queue.filter (fun r => r.task_id != tid)
          tasks := updateTask { t with status := TaskStatus.cancelled }
            st.tasks }) := by
    intro st tid t hf hs
    have h : ¬(t.status ≠ TaskStatus.pending ∧
        t.status ≠ TaskStatus.retrying) := by
      rcases hs with h1 | h1 <;> simp [h1]
    simp only [sqliteCancelTask, hf, h, if_false]
    rfl
  refine ⟨fun σ q tid => rfl, fun st tid => ⟨?_, ?_, fun t hf hs =>
    lem_ok st tid t hf hs⟩⟩
  · constructor
    · intro h
      cases hf : findTask st tid with
      | none => rw [lem_none st tid hf] at h; cases h
      | some t =>
        by_cases hs : t.status = TaskStatus.pending ∨
            t.status = TaskStatus.retrying
        · exact ⟨t, rfl, hs⟩
        · rw [lem_refuse st tid t hf hs] at h; cases h
    · rintro ⟨t, hf, hs⟩
      rw [lem_ok st tid t hf hs]
  · intro h
    cases hf : findTask st tid with
    | none => rw [lem_none st tid hf]
    | some t =>
      by_cases hs : t.status = TaskStatus.pending ∨
          t.status = TaskStatus.retrying
      · rw [lem_ok st tid t hf hs] at h; cases h
      · rw [lem_refuse st tid t hf hs]

/-- Witness for C10: cancelling a pending task in a one-task store, and the
refusal on a completed task. -/
theorem c10_witness :
    persistentCancelTask (37 : Nat) "任务" = (false, 37) ∧
    (sqliteCancelTask "a"
      ⟨[mkTask "a" "s" .normal 0], [⟨0, "a", "s", 3, 0⟩], 1, []⟩).1 = true ∧
    (sqliteCancelTask "a"
      ⟨[{ mkTask "a" "s" .normal 0 with status := .completed }], [], 1,
        []⟩).1 = false := by
  refine ⟨c10_cancel_semantics.1 Nat 37 "任务", ?_, ?_⟩
  · exact (c10_cancel_semantics.2
      ⟨[mkTask "a" "s" .normal 0], [⟨0, "a", "s", 3, 0⟩], 1, []⟩ "a").1.mpr
      ⟨mkTask "a" "s" .normal 0, by decide, Or.inl (by decide)⟩
  · by_contra h
    have := (c10_cancel_semantics.2
      ⟨[{ mkTask "a" "s" .normal 0 with status := .completed }], [], 1,
        []⟩ "a").1.mp (by simpa using h)
    obtain ⟨t, ht, hor⟩ := this
    have : t = { mkTask "a" "s" .normal 0 with status := .completed } := by
      cases ht; rfl
    subst this
    rcases hor with h1 | h1 <;> simp at h1

/-! ### C9 — threshold validation at construction -/

/-- **C9 counterexample.** `DynamicWorkerScaler.__init__` performs no
validation: a scheduler component is constructible with
`scale_down_threshold ≥ scale_up_threshold` (here 0.7 ≥ 0.3), so the claim
that no such component is ever created is false. -/
theorem c9_counterexample_scaler_unvalidated :
    (mkDynamicWorkerScaler 1 10 (0.3 : ℚ) (0.7 : ℚ) 30).scale_down_threshold ≥
      (mkDynamicWorkerScaler 1 10 (0.3 : ℚ) (0.7 : ℚ) 30).scale_up_threshold
    := by decide

/-- **C9 (amended).** `Settings` construction rejects every configuration
with `scale_down_threshold ≥ scale_up_threshold`, and any successfully
constructed `Settings` has `scale_down < scale_up`; the
`DynamicWorkerScaler` constructor itself performs no threshold
validation. -/
theorem c9_settings_reject_thresholds :
    (∀ up down : ℚ, down ≥ up → ∃ e, mkSettings up down = .error e) ∧
    (∀ (up down : ℚ) (s : Settings), mkSettings up down = .ok s →
      s.worker_scale_down_threshold < s.worker_scale_up_threshold) := by
  constructor
  · intro up down h
    by_cases c1 : 0.1 ≤ up ∧ up ≤ 1.0
    · by_cases c2 : (0 : ℚ) ≤ down ∧ down ≤ 0.9
      · exact ⟨"Scale down threshold must be less than scale up threshold",
          by simp [mkSettings, c1, c2, h]⟩
      · exact ⟨"worker_scale_down_threshold out of range",
          by simp [mkSettings, c1, c2]⟩
    · exact ⟨"worker_scale_up_threshold out of range",
        by simp [mkSettings, c1]⟩
  · intro up down s hs
    by_cases c1 : 0.1 ≤ up ∧ up ≤ 1.0
    case neg => simp [mkSettings, c1] at hs
    by_cases c2 : (0 : ℚ) ≤ down ∧ down ≤ 0.9
    case neg => simp [mkSettings, c1, c2] at hs
    by_cases c3 : down ≥ up
    case pos => simp [mkSettings, c1, c2, c3] at hs
    simp only [mkSettings, c1, c2, c3, and_self, not_true_eq_false,
      if_false, if_neg c3, Except.ok.injEq] at hs
    subst hs
    exact lt_of_not_ge c3

/-- Witness for C9: the default thresholds construct, equal thresholds are
rejected. -/
theorem c9_witness :
    (∃ e, mkSettings (0.5 : ℚ) (0.5 : ℚ) = .error e) ∧
    ({ worker_scale_up_threshold := (0.7 : ℚ),
       worker_scale_down_threshold := (0.3 : ℚ) } :
        Settings).worker_scale_down_threshold <
      ({ worker_scale_up_threshold := (0.7 : ℚ),
         worker_scale_down_threshold := (0.3 : ℚ) } :
          Settings).worker_scale_up_threshold := by
  refine ⟨c9_settings_reject_thresholds.1 0.5 0.5 le_rfl, ?_⟩
  exact c9_settings_reject_thresholds.2 0.7 0.3 _ (by rfl)

/-! ### C8 — determinism of the workload analysis -/

/-- **C8.** `analyze_api` is deterministic: its result is a function of the
endpoint list alone, independent of the ambient wall clock and random-number
state. -/
theorem c8_analyze_deterministic
    (amb1 amb2 : Ambient) (eps1 eps2 : List EndpointInfo)
    (h : eps1 = eps2) :
    analyze_api_ambient amb1 eps1 = analyze_api_ambient amb2 eps2 := by
  rw [h]; rfl

/-- Witness for C8 on the 15-endpoint CRUD workload under two different
ambient states. -/
theorem c8_witness :
    analyze_api_ambient ⟨0, 0⟩ crud15 = analyze_api_ambient ⟨123, 45⟩ crud15 :=
  c8_analyze_deterministic ⟨0, 0⟩ ⟨123, 45⟩ crud15 crud15 rfl

/-! ### C6 — the Stabilization exit condition -/

theorem check_exit_all_tasks (ps : ProgressiveScheduler) (now : ℚ)
    (metrics : List WorkerMetrics) :
    ps.check_exit_condition now "all_tasks_completed" metrics =
      decide (ProgressiveScheduler.sumPending metrics = 0) := rfl

/-- **C6 counterexample.** With one worker whose backlog is empty but which
is still processing a task, the Stabilization exit condition already fires:
the exit condition is not equivalent to "zero pending AND zero
in-progress". -/
theorem c6_counterexample_in_progress_ignored :
    ¬((stabilizationState samplePattern 0 []).should_transition 100
        drainedBusyMetrics = true ↔
      (ProgressiveScheduler.sumPending drainedBusyMetrics = 0 ∧
        ProgressiveScheduler.inProgressCount drainedBusyMetrics = 0)) := by
  decide

/-- **C6 (amended).** The Stabilization phase (terminal phase of the AUTO
plan) exits exactly when the total pending count over the worker metrics is
zero; the in-progress count plays no role. -/
theorem c6_stabilization_exit_iff_no_pending
    (p : APIPattern) (hist : List ℚ) (start now : ℚ) (hstart : start ≤ now)
    (metrics : List WorkerMetrics) :
    (stabilizationState p start hist).should_transition now metrics = true ↔
      ProgressiveScheduler.sumPending metrics = 0 := by
  have hphase : (stabilizationState p start hist).get_current_phase =
      some { phase_name := "stabilization"
             min_duration_seconds := 0
             target_workers := calculate_stable_workers p
             max_duration_seconds := none
             entry_conditions := ["optimization_completed"]
             exit_conditions := ["all_tasks_completed"]
             throughput_improvement_criterion := none } := rfl
  have hnn : ¬(now - start < ((0 : Nat) : ℚ)) := by
    push_cast
    linarith
  unfold ProgressiveScheduler.should_transition
  rw [hphase]
  dsimp only [stabilizationState]
  rw [if_neg hnn]
  dsimp only
  simp only [List.any_cons, List.any_nil, Bool.or_false,
    check_exit_all_tasks, decide_eq_true_eq]

/-- Witness for C6 with an idle single-worker snapshot. -/
theorem c6_witness :
    (stabilizationState samplePattern 0 []).should_transition 50
      [{ worker_id := "w1", status := "idle" }] = true :=
  (c6_stabilization_exit_iff_no_pending samplePattern [] 0 50 (by norm_num)
    [{ worker_id := "w1", status := "idle" }]).mpr (by decide)

/-! ### Dissection lemmas for `evaluate_scaling_need` -/

namespace DynamicWorkerScaler

theorem evaluate_split (now : ℚ) (sys : SystemResourceMetrics)
    (s : DynamicWorkerScaler) :
    evaluate_scaling_need now sys s = (decisionOf now sys s, postState s now)
    := by
  unfold evaluate_scaling_need decisionOf
  by_cases c1 : (postState s now).in_cooldown_period now = true
  · simp [c1]
  · by_cases c2 : (postState s now).calculate_queue_pressure >
          (postState s now).scale_up_threshold ∧
        (check_resource_constraints sys).at_limit = false
    · by_cases c3 :
          sys.active_worker_count < (postState s now).max_workers
      · simp [c1, c2, c3]
      · simp [c1, c2, c3]
    · by_cases c4 : (postState s now).calculate_queue_pressure <
          (postState s now).scale_down_threshold
      · by_cases c5 :
            sys.active_worker_count > (postState s now).min_workers
        · simp [c1, c2, c4, c5]
        · simp [c1, c2, c4, c5]
      · simp [c1, c2, c4]

theorem decisionOf_scale_up_inv (now : ℚ) (sys : SystemResourceMetrics)
    (s : DynamicWorkerScaler)
    (h : (decisionOf now sys s).action = ScalingAction.scale_up) :
    decisionOf now sys s =
      (postState s now).create_scale_up_decision sys.active_worker_count
        ((postState s now).calculate_queue_pressure)
        (check_resource_constraints sys) ∧
      sys.active_worker_count < s.max_workers := by
  unfold decisionOf at h ⊢
  by_cases c1 : (postState s now).in_cooldown_period now = true
  · simp [c1, create_decision] at h
  · by_cases c2 : (postState s now).calculate_queue_pressure >
          (postState s now).scale_up_threshold ∧
        (check_resource_constraints sys).at_limit = false
    · by_cases c3 :
          sys.active_worker_count < (postState s now).max_workers
      · simp only [c1, c2, c3, Bool.false_eq_true, and_self, if_false,
          if_true, ite_true, ite_false]
        exact ⟨trivial, c3⟩
      · simp [c1, c2, c3, create_decision] at h
    · by_cases c4 : (postState s now).calculate_queue_pressure <
          (postState s now).scale_down_threshold
      · by_cases c5 :
            sys.active_worker_count > (postState s now).min_workers
        · simp [c1, c2, c4, c5, create_scale_down_decision] at h
        · simp [c1, c2, c4, c5, create_decision] at h
      · simp [c1, c2, c4, create_decision] at h

theorem decisionOf_scale_down_inv (now : ℚ) (sys : SystemResourceMetrics)
    (s : DynamicWorkerScaler)
    (h : (decisionOf now sys s).action = ScalingAction.scale_down) :
    decisionOf now sys s =
      create_scale_down_decision sys.active_worker_count
        ((postState s now).calculate_queue_pressure) ∧
      sys.active_worker_count > s.min_workers := by
  unfold decisionOf at h ⊢
  by_cases c1 : (postState s now).in_cooldown_period now = true
  · simp [c1, create_decision] at h
  · by_cases c2 : (postState s now).calculate_queue_pressure >
          (postState s now).scale_up_threshold ∧
        (check_resource_constraints sys).at_limit = false
    · by_cases c3 :
          sys.active_worker_count < (postState s now).max_workers
      · simp [c1, c2, c3, create_scale_up_decision] at h
      · simp [c1, c2, c3, create_decision] at h
    · by_cases c4 : (postState s now).calculate_queue_pressure <
          (postState s now).scale_down_threshold
      · by_cases c5 :
            sys.active_worker_count > (postState s now).min_workers
        · simp only [c1, c2, c4, c5, Bool.false_eq_true, and_self,
            if_false, if_true, ite_true, ite_false, eq_self_iff_true,
            not_true, not_false_iff]
          exact ⟨trivial, c5⟩
        · simp [c1, c2, c4, c5, create_decision] at h
      · simp [c1, c2, c4, create_decision] at h

theorem decisionOf_cooldown (now : ℚ) (sys : SystemResourceMetrics)
    (s : DynamicWorkerScaler) (t0 : ℚ)
    (h1 : s.last_scaling_time = some t0)
    (h2 : now - t0 < s.scaling_cooldown) :
    decisionOf now sys s =
      create_decision .maintain sys.active_worker_count
        "In cooldown period" := by
  have hc : (postState s now).in_cooldown_period now = true := by
    simp [in_cooldown_period, postState, h1, h2]
  unfold decisionOf
  simp [hc]

end DynamicWorkerScaler

/-! ### C2 — scale-up amounts and the pressure-0.95 scenario -/

/-- **C2.** Every ScaleUp decision adds +1 worker at pressure ≤ 0.9 and +2
(capped by `max_workers`) above 0.9, and never targets beyond
`max_workers`; in particular with queue pressure 0.95, 3 active workers,
`max_workers` 5, default scale-up threshold and no resource ceiling
breached, the decision is ScaleUp targeting 5. -/
theorem c2_scale_up_amounts
    (s : DynamicWorkerScaler) (now : ℚ) (sys : SystemResourceMetrics) :
    ((DynamicWorkerScaler.evaluate_scaling_need now sys s).1.action =
        ScalingAction.scale_up →
      (DynamicWorkerScaler.evaluate_scaling_need now sys s).1.current_workers
          = sys.active_worker_count ∧
      sys.active_worker_count < s.max_workers ∧
      (DynamicWorkerScaler.evaluate_scaling_need now sys s).1.target_workers =
        (if (DynamicWorkerScaler.postState s now).calculate_queue_pressure
              > 0.9
          then min (sys.active_worker_count + 2) s.max_workers
          else sys.active_worker_count + 1) ∧
      (DynamicWorkerScaler.evaluate_scaling_need now sys s).1.target_workers
        ≤ s.max_workers) ∧
    (s.last_scaling_time = none →
      s.scale_up_threshold = 0.7 →
      (DynamicWorkerScaler.postState s now).calculate_queue_pressure = 0.95 →
      sys.active_worker_count = 3 →
      s.max_workers = 5 →
      (DynamicWorkerScaler.check_resource_constraints sys).at_limit = false →
      (DynamicWorkerScaler.evaluate_scaling_need now sys s).1.action =
          ScalingAction.scale_up ∧
        (DynamicWorkerScaler.evaluate_scaling_need now sys
          s).1.target_workers = 5) := by
  rw [DynamicWorkerScaler.evaluate_split now sys s]
  constructor
  · intro h
    obtain ⟨hd, hlt⟩ :=
      DynamicWorkerScaler.decisionOf_scale_up_inv now sys s h
    rw [hd]
    dsimp only [DynamicWorkerScaler.create_scale_up_decision,
      DynamicWorkerScaler.postState]
    refine ⟨rfl, hlt, ?_, ?_⟩
    · split <;> omega
    · split <;> omega
  · intro hcool hup hqp hactive hmaxw hlim
    have hnc : (DynamicWorkerScaler.postState s now).in_cooldown_period now
        = false := by
      simp [DynamicWorkerScaler.in_cooldown_period,
        DynamicWorkerScaler.postState, hcool]
    have hthr : (DynamicWorkerScaler.postState s now).scale_up_threshold
        = (0.7 : ℚ) := hup
    have hmx : (DynamicWorkerScaler.postState s now).max_workers = 5 := hmaxw
    unfold DynamicWorkerScaler.decisionOf
    rw [if_neg (by simp [hnc])]
    rw [if_pos (show _ ∧ _ from ⟨by rw [hqp, hthr]; norm_num, hlim⟩)]
    rw [if_pos (by rw [hactive, hmx]; norm_num)]
    refine ⟨rfl, ?_⟩
    have htgt : (DynamicWorkerScaler.create_scale_up_decision
        (DynamicWorkerScaler.postState s now) sys.active_worker_count
        ((DynamicWorkerScaler.postState s now).calculate_queue_pressure)
        (DynamicWorkerScaler.check_resource_constraints sys)).target_workers
        = sys.active_worker_count +
          (if (DynamicWorkerScaler.postState s now).calculate_queue_pressure
              > 0.9
            then min 2 ((DynamicWorkerScaler.postState s now).max_workers -
              sys.active_worker_count)
            else 1) := rfl
    rw [htgt, hqp, hactive, hmx]
    rw [if_pos (by norm_num)]
    omega

/-- Witness for C2: a worker snapshot with 90 pending tasks and no
completions yields queue pressure exactly 0.95; with 3 of at most 5 workers
live on a healthy host the decision is ScaleUp to 5. -/
theorem c2_witness :
    (DynamicWorkerScaler.evaluate_scaling_need 100 healthySys3
        pressuredScaler).1.action = ScalingAction.scale_up ∧
    (DynamicWorkerScaler.evaluate_scaling_need 100 healthySys3
        pressuredScaler).1.target_workers = 5 :=
  (c2_scale_up_amounts pressuredScaler 100 healthySys3).2
    (by decide) (by decide) (by decide) (by decide) (by decide) (by decide)

/-! ### C5 — decision bounds and cooldown hysteresis -/

/-- **C5 counterexample.** An evaluation with no live workers (reachable at
startup) produces a Maintain decision whose `target_workers` (0) lies below
`min_workers` (1): decisions are not confined to
`[min_workers, max_workers]`. -/
theorem c5_counterexample_target_below_min :
    (DynamicWorkerScaler.evaluate_scaling_need 10 healthySys0
        freshScaler).1.target_workers < freshScaler.min_workers := by
  decide

/-- **C5 (amended).** Every ScaleUp decision strictly raises the worker
count and never targets above `max_workers`; every ScaleDown decision
strictly lowers it and never targets below `min_workers`; every evaluation
within `cooldown` seconds of the last executed scaling action yields a
Maintain decision, and executing that decision records no scaling action
(the state is unchanged).  (Maintain decisions echo the observed live
worker count, which may lie outside `[min_workers, max_workers]`.) -/
theorem c5_bounds_and_cooldown :
    (∀ (s : DynamicWorkerScaler) (now : ℚ) (sys : SystemResourceMetrics),
      (DynamicWorkerScaler.evaluate_scaling_need now sys s).1.action =
          ScalingAction.scale_up →
        (DynamicWorkerScaler.evaluate_scaling_need now sys
            s).1.current_workers <
          (DynamicWorkerScaler.evaluate_scaling_need now sys
            s).1.target_workers ∧
        (DynamicWorkerScaler.evaluate_scaling_need now sys
          s).1.target_workers ≤ s.max_workers) ∧
    (∀ (s : DynamicWorkerScaler) (now : ℚ) (sys : SystemResourceMetrics),
      (DynamicWorkerScaler.evaluate_scaling_need now sys s).1.action =
          ScalingAction.scale_down →
        (DynamicWorkerScaler.evaluate_scaling_need now sys
            s).1.target_workers <
          (DynamicWorkerScaler.evaluate_scaling_need now sys
            s).1.current_workers ∧
        s.min_workers ≤
          (DynamicWorkerScaler.evaluate_scaling_need now sys
            s).1.target_workers) ∧
    (∀ (s : DynamicWorkerScaler) (now t0 : ℚ)
       (sys : SystemResourceMetrics) (op : Bool),
      s.last_scaling_time = some t0 → now - t0 < s.scaling_cooldown →
      (DynamicWorkerScaler.evaluate_scaling_need now sys s).1.action =
          ScalingAction.maintain ∧
        DynamicWorkerScaler.execute_scaling
          (DynamicWorkerScaler.evaluate_scaling_need now sys s).1 op now
          (DynamicWorkerScaler.evaluate_scaling_need now sys s).2 =
        (true, (DynamicWorkerScaler.evaluate_scaling_need now sys s).2)) := by
  refine ⟨?_, ?_, ?_⟩
  · intro s now sys h
    rw [DynamicWorkerScaler.evaluate_split now sys s] at h ⊢
    obtain ⟨hd, hlt⟩ :=
      DynamicWorkerScaler.decisionOf_scale_up_inv now sys s h
    rw [hd]
    dsimp only [DynamicWorkerScaler.create_scale_up_decision,
      DynamicWorkerScaler.postState]
    constructor
    · split <;> omega
    · split <;> omega
  · intro s now sys h
    rw [DynamicWorkerScaler.evaluate_split now sys s] at h ⊢
    obtain ⟨hd, hgt⟩ :=
      DynamicWorkerScaler.decisionOf_scale_down_inv now sys s h
    rw [hd]
    dsimp only [DynamicWorkerScaler.create_scale_down_decision]
    omega
  · intro s now t0 sys op h1 h2
    have ha : (DynamicWorkerScaler.evaluate_scaling_need now sys s).1.action
        = ScalingAction.maintain := by
      rw [DynamicWorkerScaler.evaluate_split now sys s,
        DynamicWorkerScaler.decisionOf_cooldown now sys s t0 h1 h2]
      rfl
    refine ⟨ha, ?_⟩
    unfold DynamicWorkerScaler.execute_scaling
    rw [if_pos ha]

/-- Witness for C5: within the cooldown window the fresh pressure state
still yields Maintain and no recorded action. -/
theorem c5_witness :
    (DynamicWorkerScaler.evaluate_scaling_need 30 healthySys3
        { pressuredScaler with last_scaling_time := some 0 }).1.action =
      ScalingAction.maintain :=
  ((c5_bounds_and_cooldown.2.2
    { pressuredScaler with last_scaling_time := some 0 } 30 0 healthySys3
    true rfl (by decide)).1)

/-! ### C7 — recommended worker bounds -/

set_option maxRecDepth 40000

/-- **C7 counterexample.** On a 60-endpoint CRUD workload the analysis
recommends `safe_start = 2` (the base value, never adjusted), while the
claim's formula demands `min(2 + 1, 10) = 3`. -/
theorem c7_counterexample_safe_start_unadjusted :
    (analyze_api crud60).toOption.map
        (fun p => p.safe_start_workers) = some 2 ∧
      (analyze_api crud60).toOption.map
        (fun p => (claimedRecommendedBounds p.pattern_name
          p.complexity_metrics).safe_start_workers) = some 3 := by
  constructor <;> decide

/-- **C7 (amended).** For every analyzed workload, `safe_start` equals the
matched archetype's base value unchanged; `optimal` is the base optimal
plus the complexity/size adjustment but clamped at the archetype's own base
max; only `max` is clamped at the global ceiling 10; the size adjustment
uses strict thresholds (more than 50 items adds +1, more than 100 adds +2).
The concrete instance holds: 15 endpoints spanning GET/POST/PUT/DELETE with
`{id}`-style path parameters classify as "RESTful CRUD" with confidence
above 0.3 and `safe_start = 2`. -/
theorem c7_recommended_bounds
    (eps : List EndpointInfo) (p : APIPattern)
    (h : analyze_api eps = .ok p) :
    (p.safe_start_workers = (baseRecommendations p.pattern_name).1 ∧
      p.optimal_workers = min ((baseRecommendations p.pattern_name).2.1 +
        recommendationAdjustment p.complexity_metrics)
        (baseRecommendations p.pattern_name).2.2 ∧
      p.recommended_max_workers =
        min ((baseRecommendations p.pattern_name).2.2 +
          recommendationAdjustment p.complexity_metrics) 10) ∧
    ((analyze_api crud15).isOk = true ∧
      ∀ q, analyze_api crud15 = .ok q →
        q.pattern_name = "RESTful CRUD" ∧ q.confidence_score > 0.3 ∧
          q.safe_start_workers = 2) := by
  constructor
  · unfold analyze_api at h
    cases hc : calculate_complexity_metrics eps with
    | error e => rw [hc] at h; cases h
    | ok cm =>
      rw [hc] at h
      cases h
      refine ⟨rfl, rfl, rfl⟩
  · refine ⟨by decide, ?_⟩
    intro q hq
    have key : (analyze_api crud15).toOption.map
        (fun r => (r.pattern_name, decide (r.confidence_score > 0.3),
          r.safe_start_workers)) = some ("RESTful CRUD", true, 2) := by
      decide
    rw [hq] at key
    simp only [Except.toOption, Option.map_some', Option.some.injEq,
      Prod.mk.injEq] at key
    exact ⟨key.1, of_decide_eq_true key.2.1, key.2.2⟩

/-- Witness for C7 at the 15-endpoint CRUD workload. -/
theorem c7_witness :
    ∃ p, analyze_api crud15 = .ok p ∧ p.safe_start_workers =
      (baseRecommendations p.pattern_name).1 := by
  cases hp : analyze_api crud15 with
  | error e =>
    have hok : (analyze_api crud15).isOk = true := by decide
    rw [hp] at hok
    cases hok
  | ok p => exact ⟨p, rfl, ((c7_recommended_bounds crud15 p hp).1).1⟩

/-! ### C1 — dequeue ordering -/

set_option maxRecDepth 8000

theorem minRow_isSome {l : List QueueRow} (h : l ≠ []) :
    (minRow l).isSome = true := by
  cases l with
  | nil => exact absurd rfl h
  | cons a as =>
    simp only [minRow]
    cases minRow as with
    | none => simp
    | some m => by_cases hlt : rowLt m a <;> simp [hlt]

theorem minRow_mem {l : List QueueRow} {q : QueueRow}
    (h : minRow l = some q) : q ∈ l := by
  induction l generalizing q with
  | nil => cases h
  | cons a as ih =>
    simp only [minRow] at h
    cases hmr : minRow as with
    | none =>
      rw [hmr] at h
      dsimp only at h
      cases h
      exact List.mem_cons_self _ _
    | some m =>
      rw [hmr] at h
      dsimp only at h
      by_cases hlt : rowLt m a
      · rw [if_pos hlt] at h
        cases h
        exact List.mem_cons_of_mem a (ih hmr)
      · rw [if_neg hlt] at h
        cases h
        exact List.mem_cons_self _ _

theorem minRow_min {l : List QueueRow} {q : QueueRow}
    (h : minRow l = some q) : ∀ r ∈ l, ¬ rowLt r q := by
  induction l generalizing q with
  | nil => cases h
  | cons a as ih =>
    simp only [minRow] at h
    cases hmr : minRow as with
    | none =>
      rw [hmr] at h
      dsimp only at h
      cases h
      have hnil : as = [] := by
        cases as with
        | nil => rfl
        | cons b bs =>
          have := minRow_isSome (l := b :: bs) (by simp)
          rw [hmr] at this
          cases this
      subst hnil
      intro r hr
      rcases List.mem_singleton.mp hr with rfl
      unfold rowLt
      omega
    | some m =>
      rw [hmr] at h
      dsimp only at h
      have hIH := ih hmr
      by_cases hlt : rowLt m a
      · rw [if_pos hlt] at h
        cases h
        intro r hr
        rcases List.mem_cons.mp hr with rfl | hr
        · unfold rowLt at hlt ⊢
          omega
        · exact hIH r hr
      · rw [if_neg hlt] at h
        cases h
        intro r hr
        rcases List.mem_cons.mp hr with rfl | hr
        · unfold rowLt
          omega
        · intro hra
          have h1 := hIH r hr
          unfold rowLt at hra h1 hlt
          omega

theorem find_eq_filter_head (p : QueueRow → Bool) (l : List QueueRow) :
    l.find? p = (l.filter p).head? := by
  induction l with
  | nil => simp
  | cons a as ih =>
    by_cases ha : p a
    · rw [List.find?_cons_of_pos _ ha, List.filter_cons_of_pos ha]
      rfl
    · rw [List.find?_cons_of_neg _ ha, List.filter_cons_of_neg ha, ih]

/-- In a scheduled-at-sorted queue of critical (1) and normal (3) rows that
contains at least one critical row, the `ORDER BY priority, scheduled_at
LIMIT 1` winner is the first critical row. -/
theorem minRow_first_crit (l : List QueueRow)
    (hp : ∀ q ∈ l, q.priority = 1 ∨ q.priority = 3)
    (hs : l.Pairwise (fun a b => a.scheduled_at < b.scheduled_at))
    (hex : ∃ q ∈ l, q.priority = 1) :
    minRow l = l.find? (fun q => q.priority == 1) := by
  induction l with
  | nil => obtain ⟨q, hq, _⟩ := hex; cases hq
  | cons a as ih =>
    by_cases ha : a.priority = 1
    · have hfind : (a :: as).find? (fun q => q.priority == 1) = some a := by
        simp [List.find?_cons, ha]
      rw [hfind]
      simp only [minRow]
      cases hmr : minRow as with
      | none => rfl
      | some m =>
        have hm : m ∈ as := minRow_mem hmr
        have hma : a.scheduled_at < m.scheduled_at :=
          (List.pairwise_cons.mp hs).1 m hm
        have hmp := hp m (List.mem_cons_of_mem a hm)
        have hnlt : ¬ rowLt m a := by
          unfold rowLt
          omega
        dsimp only
        rw [if_neg hnlt]
    · have ha3 : a.priority = 3 := by
        rcases hp a (List.mem_cons_self a as) with h | h
        · exact absurd h ha
        · exact h
      have hfind : (a :: as).find? (fun q => q.priority == 1) =
          as.find? (fun q => q.priority == 1) := by
        simp [List.find?_cons, ha]
      have hex' : ∃ q ∈ as, q.priority = 1 := by
        obtain ⟨q, hq, hq1⟩ := hex
        rcases List.mem_cons.mp hq with rfl | hq'
        · exact absurd hq1 ha
        · exact ⟨q, hq', hq1⟩
      have hih := ih (fun q hq => hp q (List.mem_cons_of_mem a hq))
        (List.pairwise_cons.mp hs).2 hex'
      obtain ⟨qc, hqcm, hqc1⟩ := hex'
      have hfs : (as.find? (fun q => q.priority == 1)).isSome := by
        rw [List.find?_isSome]
        exact ⟨qc, hqcm, by simp [hqc1]⟩
      cases hfq : as.find? (fun q => q.priority == 1) with
      | none => rw [hfq] at hfs; cases hfs
      | some m =>
        have hm1 : m.priority = 1 := by
          have := List.find?_some hfq
          simpa using this
        rw [hfind, hfq]
        simp only [minRow]
        rw [hih, hfq]
        dsimp only
        have hlt : rowLt m a := by
          unfold rowLt
          omega
        rw [if_pos hlt]

theorem findTask_updateTask_ne (t1 : Task) (tasks : List Task) (tid : String)
    (h : tid ≠ t1.task_id) :
    (updateTask t1 tasks).find? (fun t => t.task_id == tid) =
      tasks.find? (fun t => t.task_id == tid) := by
  induction tasks with
  | nil => rfl
  | cons u us ih =>
    by_cases hu : u.task_id == t1.task_id
    · have hu' : u.task_id = t1.task_id := by simpa using hu
      have h1 : (t1.task_id == tid) = false := by
        simp [Ne.symm h]
      have h2 : (u.task_id == tid) = false := by
        simp [hu']
        exact Ne.symm h
      simp only [updateTask, List.map_cons, hu, if_true, List.find?_cons,
        h1, h2]
      exact ih
    · have hufalse : (u.task_id == t1.task_id) = false := by
        simpa using hu
      simp only [updateTask, List.map_cons, hufalse, Bool.false_eq_true,
        if_false, List.find?_cons]
      cases hcond : (u.task_id == tid) with
      | true => rfl
      | false => exact ih

theorem availableRows_eq_queue (now : Nat) (st : DBState)
    (hInv : QueueInv now st) : availableRows now none st = st.queue := by
  unfold availableRows
  apply List.filter_eq_self.mpr
  intro q hq
  obtain ⟨t, hf, hp⟩ := hInv.linked q hq
  have hs := hInv.avail q hq
  simp [hf, hp, hs]

theorem pairwise_ne_tid {st_queue : List QueueRow}
    (hp : st_queue.Pairwise (fun a b => a.task_id ≠ b.task_id))
    {a b : QueueRow} (ha : a ∈ st_queue) (hb : b ∈ st_queue) (hab : a ≠ b) :
    a.task_id ≠ b.task_id := by
  have hsym : Symmetric (fun x y : QueueRow => x.task_id ≠ y.task_id) :=
    fun x y h => Ne.symm h
  exact hp.forall hsym ha hb hab

/-- Under the invariant, when a critical row is present `dequeue` consumes
exactly the first critical row, the remaining state keeps the invariant, and
the critical backlog loses its head. -/
theorem dequeue_first_critical (now : Nat) (st : DBState)
    (hInv : QueueInv now st) (qc : QueueRow) (rest : List QueueRow)
    (hcrit : critRows st = qc :: rest) :
    ∃ t, findTask st qc.task_id = some t ∧
      t.task_id = qc.task_id ∧
      dequeue now none st =
        (some (t.mark_in_progress now),
          { st with
            queue := st.queue.filter (fun r => r.queue_id != qc.queue_id)
            tasks := updateTask (t.mark_in_progress now) st.tasks
            progress := updateProgress (t.mark_in_progress now).session_id
              (-1) 1 0 0 now st.progress }) ∧
      QueueInv now
        { st with
          queue := st.queue.filter (fun r => r.queue_id != qc.queue_id)
          tasks := updateTask (t.mark_in_progress now) st.tasks
          progress := updateProgress (t.mark_in_progress now).session_id
            (-1) 1 0 0 now st.progress } ∧
      critRows
        { st with
          queue := st.queue.filter (fun r => r.queue_id != qc.queue_id)
          tasks := updateTask (t.mark_in_progress now) st.tasks
          progress := updateProgress (t.mark_in_progress now).session_id
            (-1) 1 0 0 now st.progress } = rest := by
  have hqc_mem : qc ∈ st.queue := by
    have : qc ∈ critRows st := by rw [hcrit]; exact List.mem_cons_self _ _
    exact List.mem_of_mem_filter this
  have hqc1 : qc.priority = 1 := by
    have : qc ∈ critRows st := by rw [hcrit]; exact List.mem_cons_self _ _
    have := List.of_mem_filter this
    simpa using this
  -- the ORDER BY winner is the first critical row
  have hmin : minRow st.queue = some qc := by
    rw [minRow_first_crit st.queue hInv.prios hInv.times
      ⟨qc, hqc_mem, hqc1⟩]
    rw [find_eq_filter_head]
    show (critRows st).head? = some qc
    rw [hcrit]
    rfl
  obtain ⟨t, hf, hpend⟩ := hInv.linked qc hqc_mem
  have htid : t.task_id = qc.task_id := by
    have := List.find?_some hf
    simpa using this
  refine ⟨t, hf, htid, ?_, ?_, ?_⟩
  · unfold dequeue
    rw [availableRows_eq_queue now st hInv, hmin]
    dsimp only
    rw [hf]
  · -- invariant preservation
    have hsub : (st.queue.filter (fun r => r.queue_id != qc.queue_id)).Sublist
        st.queue := List.filter_sublist _
    have hmem_sub : ∀ r ∈ st.queue.filter
        (fun r => r.queue_id != qc.queue_id), r ∈ st.queue :=
      fun r hr => List.mem_of_mem_filter hr
    refine ⟨?_, ?_, ?_, ?_, ?_, ?_⟩
    · intro q hq; exact hInv.avail q (hmem_sub q hq)
    · intro q hq
      have hqmem := hmem_sub q hq
      have hqid : q.queue_id ≠ qc.queue_id := by
        have := List.of_mem_filter hq
        simpa using this
      have hqne : q ≠ qc := fun hcontra => hqid (by rw [hcontra])
      have htidne : q.task_id ≠ qc.task_id :=
        pairwise_ne_tid hInv.tids hqmem hqc_mem hqne
      obtain ⟨u, hu, hup⟩ := hInv.linked q hqmem
      refine ⟨u, ?_, hup⟩
      show (updateTask (t.mark_in_progress now) st.tasks).find?
        (fun v => v.task_id == q.task_id) = some u
      rw [findTask_updateTask_ne]
      · exact hu
      · show q.task_id ≠ (t.mark_in_progress now).task_id
        rw [show (t.mark_in_progress now).task_id = t.task_id from rfl, htid]
        exact htidne
    · intro q hq; exact hInv.prios q (hmem_sub q hq)
    · exact hInv.times.sublist hsub
    · exact hInv.tids.sublist hsub
    · exact hInv.qids.sublist hsub
  · -- the critical backlog loses its head
    show ((st.queue.filter (fun r => r.queue_id != qc.queue_id)).filter
      (fun q => q.priority == TaskPriority.critical.value)) = rest
    rw [List.filter_comm]
    have : st.queue.filter
        (fun q => q.priority == TaskPriority.critical.value) = qc :: rest :=
      hcrit
    rw [this]
    rw [List.filter_cons_of_neg (by simp)]
    apply List.filter_eq_self.mpr
    intro r hr
    have hrmem : r ∈ st.queue := by
      have : r ∈ critRows st := by rw [hcrit]; exact List.mem_cons_of_mem _ hr
      exact List.mem_of_mem_filter this
    have hrne : r ≠ qc := by
      intro hcontra
      subst hcontra
      have hnodup : (critRows st).Pairwise
          (fun a b => a.queue_id ≠ b.queue_id) :=
        hInv.qids.sublist (List.filter_sublist _)
      rw [hcrit] at hnodup
      exact (List.pairwise_cons.mp hnodup).1 r hr rfl
    have : r.queue_id ≠ qc.queue_id := by
      have hsymm : Symmetric (fun a b : QueueRow => a.queue_id ≠ b.queue_id)
        := fun x y h => Ne.symm h
      exact hInv.qids.forall hsymm hrmem hqc_mem hrne
    simpa using this

/-- Iterated dequeue returns the critical rows' task ids in FIFO order, as
long as critical rows remain. -/
theorem dequeueN_returns_criticals (now : Nat) :
    ∀ (k : Nat) (st : DBState), QueueInv now st →
      k ≤ (critRows st).length →
      (dequeueN k now none st).1.map (fun t => t.task_id) =
        ((critRows st).map (fun q => q.task_id)).take k := by
  intro k
  induction k with
  | zero => intro st _ _; simp [dequeueN]
  | succ k ih =>
    intro st hInv hk
    cases hcrit : critRows st with
    | nil => rw [hcrit] at hk; simp at hk
    | cons qc rest =>
      obtain ⟨t, hf, htid, hdeq, hInv', hcrit'⟩ :=
        dequeue_first_critical now st hInv qc rest hcrit
      have hk' : k ≤ (critRows
          { st with
            queue := st.queue.filter (fun r => r.queue_id != qc.queue_id)
            tasks := updateTask (t.mark_in_progress now) st.tasks
            progress := updateProgress (t.mark_in_progress now).session_id
              (-1) 1 0 0 now st.progress }).length := by
        rw [hcrit']
        rw [hcrit] at hk
        simpa using Nat.le_of_succ_le_succ hk
      have hihs := ih _ hInv' hk'
      rw [hcrit'] at hihs
      simp only [dequeueN, hdeq]
      simp only [List.map_cons, hcrit]
      rw [List.take_succ_cons]
      have hhead : (t.mark_in_progress now).task_id = qc.task_id := htid
      rw [hhead, hihs]

theorem find_app_some {α : Type} {p : α → Bool} {l1 : List α} {x : α}
    (l2 : List α) (h : l1.find? p = some x) :
    (l1 ++ l2).find? p = some x := by
  induction l1 with
  | nil => cases h
  | cons u us ih =>
    cases hu : p u with
    | true =>
      rw [List.find?_cons_of_pos _ hu] at h
      cases h
      exact List.find?_cons_of_pos _ hu
    | false =>
      rw [List.find?_cons_of_neg _ (by simp [hu])] at h
      rw [List.cons_append, List.find?_cons_of_neg _ (by simp [hu])]
      exact ih h

theorem find_app_none {α : Type} {p : α → Bool} {l1 : List α}
    (l2 : List α) (h : l1.find? p = none) :
    (l1 ++ l2).find? p = l2.find? p := by
  induction l1 with
  | nil => rfl
  | cons u us ih =>
    cases hu : p u with
    | true =>
      rw [List.find?_cons_of_pos _ hu] at h
      cases h
    | false =>
      rw [List.find?_cons_of_neg _ (by simp [hu])] at h
      rw [List.cons_append, List.find?_cons_of_neg _ (by simp [hu])]
      exact ih h

theorem enqueue_fresh_step (sid : String) (op : String × TaskPriority)
    (t0 : Nat) (st : DBState) (hInv : EnqInv st t0)
    (hfresh : ∀ t ∈ st.tasks, t.task_id ≠ op.1)
    (hp2 : op.2 = TaskPriority.critical ∨ op.2 = TaskPriority.normal) :
    enqueue t0 (mkTask op.1 sid op.2 t0) st = .ok
      { st with
        tasks := st.tasks ++ [mkTask op.1 sid op.2 t0]
        queue := st.queue ++
          [⟨st.next_queue_id, op.1, sid, op.2.value, t0⟩]
        next_queue_id := st.next_queue_id + 1
        progress := updateProgress sid 1 0 0 0 t0 st.progress } ∧
    EnqInv
      { st with
        tasks := st.tasks ++ [mkTask op.1 sid op.2 t0]
        queue := st.queue ++
          [⟨st.next_queue_id, op.1, sid, op.2.value, t0⟩]
        next_queue_id := st.next_queue_id + 1
        progress := updateProgress sid 1 0 0 0 t0 st.progress } (t0 + 1) ∧
    critRows
      { st with
        tasks := st.tasks ++ [mkTask op.1 sid op.2 t0]
        queue := st.queue ++
          [⟨st.next_queue_id, op.1, sid, op.2.value, t0⟩]
        next_queue_id := st.next_queue_id + 1
        progress := updateProgress sid 1 0 0 0 t0 st.progress } =
      critRows st ++
        (if op.2 = TaskPriority.critical then
          [⟨st.next_queue_id, op.1, sid, op.2.value, t0⟩] else []) := by
  have hany : st.tasks.any (fun u => u.task_id == op.1) = false := by
    rw [List.any_eq_false]
    intro t ht
    simp [hfresh t ht]
  have htid_new : ∀ q ∈ st.queue, q.task_id ≠ op.1 := by
    intro q hq
    obtain ⟨t, hf, _⟩ := hInv.linked q hq
    have hmem := List.mem_of_find?_eq_some hf
    have heq : t.task_id = q.task_id := by
      have := List.find?_some hf
      simpa using this
    rw [← heq]
    exact hfresh t hmem
  refine ⟨?_, ?_, ?_⟩
  · unfold enqueue
    have hany2 : (st.tasks.any fun u =>
        u.task_id == (mkTask op.1 sid op.2 t0).task_id) = false := hany
    rw [hany2]
    rfl
  · refine ⟨?_, ?_, ?_, ?_, ?_, ?_, ?_⟩
    · intro q hq
      rcases List.mem_append.mp hq with hq | hq
      · exact Nat.lt_succ_of_lt (hInv.sched_lt q hq)
      · rcases List.mem_singleton.mp hq with rfl
        exact Nat.lt_succ_self t0
    · intro q hq
      rcases List.mem_append.mp hq with hq | hq
      · obtain ⟨t, hf, hp⟩ := hInv.linked q hq
        exact ⟨t, find_app_some _ hf, hp⟩
      · rcases List.mem_singleton.mp hq with rfl
        have hnone : st.tasks.find? (fun t => t.task_id == op.1) = none := by
          rw [List.find?_eq_none]
          intro t ht
          simp [hfresh t ht]
        have happ :=
          find_app_none [mkTask op.1 sid op.2 t0] hnone
        refine ⟨mkTask op.1 sid op.2 t0, ?_, rfl⟩
        show (st.tasks ++ [mkTask op.1 sid op.2 t0]).find?
            (fun t => t.task_id == op.1) = some (mkTask op.1 sid op.2 t0)
        rw [happ]
        simp [mkTask]
    · intro q hq
      rcases List.mem_append.mp hq with hq | hq
      · exact hInv.prios q hq
      · rcases List.mem_singleton.mp hq with rfl
        rcases hp2 with h | h <;> rw [h] <;> simp [TaskPriority.value]
    · rw [List.pairwise_append]
      exact ⟨hInv.times, List.pairwise_singleton _ _,
        fun a ha b hb => by
          rcases List.mem_singleton.mp hb with rfl
          exact hInv.sched_lt a ha⟩
    · rw [List.pairwise_append]
      exact ⟨hInv.tids, List.pairwise_singleton _ _,
        fun a ha b hb => by
          rcases List.mem_singleton.mp hb with rfl
          exact htid_new a ha⟩
    · rw [List.pairwise_append]
      exact ⟨hInv.qids, List.pairwise_singleton _ _,
        fun a ha b hb => by
          rcases List.mem_singleton.mp hb with rfl
          exact Nat.ne_of_lt (hInv.qid_lt a ha)⟩
    · intro q hq
      rcases List.mem_append.mp hq with hq | hq
      · exact Nat.lt_succ_of_lt (hInv.qid_lt q hq)
      · rcases List.mem_singleton.mp hq with rfl
        exact Nat.lt_succ_self _
  · unfold critRows
    show (st.queue ++
        [({ queue_id := st.next_queue_id, task_id := op.1, session_id := sid,
            priority := op.2.value, scheduled_at := t0 } : QueueRow)]).filter
        (fun q => q.priority == TaskPriority.critical.value) =
      st.queue.filter (fun q => q.priority == TaskPriority.critical.value) ++
        (if op.2 = TaskPriority.critical then
          [({ queue_id := st.next_queue_id, task_id := op.1,
              session_id := sid, priority := op.2.value,
              scheduled_at := t0 } : QueueRow)] else [])
    rw [List.filter_append]
    congr 1
    rcases hp2 with h | h <;> rw [h] <;> simp [TaskPriority.value]

theorem enqueueSeq_ok :
    ∀ (ops : List (String × TaskPriority)) (sid : String) (t0 : Nat)
      (st : DBState), EnqInv st t0 →
      (∀ op ∈ ops, ∀ t ∈ st.tasks, t.task_id ≠ op.1) →
      (ops.map Prod.fst).Nodup →
      (∀ op ∈ ops, op.2 = TaskPriority.critical ∨
        op.2 = TaskPriority.normal) →
      ∃ st', enqueueSeq sid t0 ops st = .ok st' ∧
        EnqInv st' (t0 + ops.length) ∧
        (critRows st').map (fun q => q.task_id) =
          (critRows st).map (fun q => q.task_id) ++
            (ops.filter (fun op => op.2 == TaskPriority.critical)).map
              Prod.fst := by
  intro ops
  induction ops with
  | nil =>
    intro sid t0 st hInv _ _ _
    exact ⟨st, rfl, by simpa using hInv, by simp⟩
  | cons op rest ih =>
    intro sid t0 st hInv hfresh hnodup hp
    obtain ⟨henq, hInv1, hcrit1⟩ := enqueue_fresh_step sid op t0 st hInv
      (hfresh op (List.mem_cons_self _ _))
      (hp op (List.mem_cons_self _ _))
    have hfresh' : ∀ op' ∈ rest, ∀ t ∈ st.tasks ++ [mkTask op.1 sid op.2 t0],
        t.task_id ≠ op'.1 := by
      intro op' hop' t ht
      rcases List.mem_append.mp ht with ht | ht
      · exact hfresh op' (List.mem_cons_of_mem _ hop') t ht
      · rcases List.mem_singleton.mp ht with rfl
        show op.1 ≠ op'.1
        have hnotin : op.1 ∉ rest.map Prod.fst :=
          (List.nodup_cons.mp hnodup).1
        intro hcontra
        exact hnotin (hcontra ▸ List.mem_map_of_mem Prod.fst hop')
    obtain ⟨st', hseq, hInv', hcrit'⟩ := ih sid (t0 + 1) _ hInv1 hfresh'
      (List.nodup_cons.mp hnodup).2
      (fun op' hop' => hp op' (List.mem_cons_of_mem _ hop'))
    refine ⟨st', ?_, ?_, ?_⟩
    · show (do
        let st1 ← enqueue t0 (mkTask op.1 sid op.2 t0) st
        enqueueSeq sid (t0 + 1) rest st1) = .ok st'
      rw [henq]
      exact hseq
    · have harith : t0 + (op :: rest).length = (t0 + 1) + rest.length := by
        simp
        omega
      rw [harith]
      exact hInv'
    · rw [hcrit', hcrit1, List.map_append, List.append_assoc]
      congr 1
      by_cases hcc : op.2 = TaskPriority.critical
      · have hfil : (op :: rest).filter
            (fun o => o.2 == TaskPriority.critical) =
            op :: rest.filter (fun o => o.2 == TaskPriority.critical) := by
          simp [List.filter_cons, hcc]
        rw [hfil, if_pos hcc]
        simp
      · have hfil : (op :: rest).filter
            (fun o => o.2 == TaskPriority.critical) =
            rest.filter (fun o => o.2 == TaskPriority.critical) := by
          simp [List.filter_cons, hcc]
        rw [hfil, if_neg hcc]
        simp

/-- **C1.** (1) A successful `dequeue` returns the task of an eligible
(pending/retrying, already due) queue row of minimal priority value, ties
broken by ascending `scheduled_at`; the returned task is never scheduled in
the future, its status becomes InProgress with the start time stamped, its
index row is deleted, and the session swaps one pending for one processing
counter.  (2) After enqueuing any batch of distinct tasks of Critical and
Normal priorities, exactly five of them Critical, in any interleaving, the
first five dequeues return precisely the five Critical tasks in FIFO
order. -/
theorem c1_dequeue_priority_order :
    (∀ (now : Nat) (sess : Option String) (st : DBState) (t1 : Task)
       (st1 : DBState),
      dequeue now sess st = (some t1, st1) →
      ∃ q, q ∈ availableRows now sess st ∧
        q.scheduled_at ≤ now ∧
        t1.task_id = q.task_id ∧
        (∀ r ∈ availableRows now sess st,
          q.priority ≤ r.priority ∧
            (q.priority = r.priority → q.scheduled_at ≤ r.scheduled_at)) ∧
        t1.status = TaskStatus.in_progress ∧
        t1.metrics.start_time = some now ∧
        st1.queue = st.queue.filter (fun r => r.queue_id != q.queue_id) ∧
        st1.tasks = updateTask t1 st.tasks ∧
        st1.progress =
          updateProgress t1.session_id (-1) 1 0 0 now st.progress) ∧
    (∀ (sid : String) (ops : List (String × TaskPriority)) (st : DBState),
      (ops.map Prod.fst).Nodup →
      (∀ op ∈ ops, op.2 = TaskPriority.critical ∨
        op.2 = TaskPriority.normal) →
      (ops.filter (fun op => op.2 == TaskPriority.critical)).length = 5 →
      enqueueSeq sid 0 ops ⟨[], [], 0, [(sid, {})]⟩ = .ok st →
      (dequeueN 5 ops.length none st).1.map (fun t => t.task_id) =
        (ops.filter (fun op => op.2 == TaskPriority.critical)).map
          Prod.fst) := by
  constructor
  · intro now sess st t1 st1 h
    unfold dequeue at h
    cases hm : minRow (availableRows now sess st) with
    | none => rw [hm] at h; simp at h
    | some q =>
      rw [hm] at h
      dsimp only at h
      cases hf : findTask st q.task_id with
      | none => rw [hf] at h; simp at h
      | some t =>
        rw [hf] at h
        dsimp only at h
        rw [Prod.mk.injEq] at h
        obtain ⟨h1, h2⟩ := h
        have ht1 : t1 = t.mark_in_progress now := (Option.some.inj h1).symm
        subst ht1
        subst h2
        have hqa : q ∈ availableRows now sess st := minRow_mem hm
        have hqsched : q.scheduled_at ≤ now := by
          have := (List.mem_filter.mp hqa).2
          have hand := (Bool.and_eq_true _ _).mp this
          exact of_decide_eq_true hand.1
        have htid : t.task_id = q.task_id := by
          have := List.find?_some hf
          simpa using this
        refine ⟨q, hqa, hqsched, htid, ?_, rfl, rfl, rfl, rfl, rfl⟩
        intro r hr
        have := minRow_min hm r hr
        unfold rowLt at this
        omega
  · intro sid ops st hnodup hp hcount hseq
    have hInv0 : EnqInv ⟨[], [], 0, [(sid, {})]⟩ 0 := by
      refine ⟨?_, ?_, ?_, ?_, ?_, ?_, ?_⟩ <;> simp
    obtain ⟨st', hseq', hInv', hcrit'⟩ := enqueueSeq_ok ops sid 0 _ hInv0
      (by simp) hnodup hp
    rw [hseq] at hseq'
    have hst : st = st' := by
      cases hseq'
      rfl
    subst hst
    have hQ : QueueInv ops.length st := by
      refine ⟨?_, hInv'.linked, hInv'.prios, hInv'.times, hInv'.tids,
        hInv'.qids⟩
      intro q hq
      have := hInv'.sched_lt q hq
      omega
    have hmap0 : (critRows (⟨[], [], 0, [(sid, {})]⟩ : DBState)).map
        (fun q => q.task_id) = [] := by
      simp [critRows]
    rw [hmap0, List.nil_append] at hcrit'
    have hlen : (critRows st).length = 5 := by
      have h1 : ((critRows st).map (fun q => q.task_id)).length =
          ((ops.filter (fun op => op.2 == TaskPriority.critical)).map
            Prod.fst).length := by rw [hcrit']
      simpa [hcount] using h1
    have hmain := dequeueN_returns_criticals ops.length 5 st hQ (by omega)
    rw [hmain]
    rw [List.take_of_length_le (by simp [hlen])]
    exact hcrit'

/-- Witness for C1 at the concrete 105-task batch `scenarioOps`: the first
five dequeues return exactly the five Critical tasks, FIFO. -/
theorem c1_witness :
    (match enqueueSeq "s" 0 scenarioOps ⟨[], [], 0, [("s", {})]⟩ with
      | .ok st =>
        (dequeueN 5 scenarioOps.length none st).1.map (fun t => t.task_id)
      | .error _ => []) = ["c1", "c2", "c3", "c4", "c5"] := by
  cases hseq : enqueueSeq "s" 0 scenarioOps ⟨[], [], 0, [("s", {})]⟩ with
  | error e =>
    have hok : (enqueueSeq "s" 0 scenarioOps
        ⟨[], [], 0, [("s", {})]⟩).isOk = true := by decide
    rw [hseq] at hok
    cases hok
  | ok st =>
    dsimp only
    rw [c1_dequeue_priority_order.2 "s" scenarioOps st (by decide)
      (by decide) (by decide) hseq]
    decide

end ApiForge
